import Mathlib

/-!
Verification of the flat-scrapping listing aggregation & reconciliation
pipeline.

Shallow embedding of `scripts/scrape-immobilier.mjs` (the operative second
document of the file; the first 2814 lines are a superseded copy of the same
script and every function modelled here is taken from the later, operative
definitions).

Modelling conventions:
* JS numbers are modelled as `ℚ` (prices, room counts, surfaces, minutes);
  `Math.pow(x, 1.12)` is modelled with exact real-number semantics via an
  integer characterisation of `⌊x^(28/25)⌋`.
* JS `null`/`undefined` on a numeric or string field is modelled as `Option`.
  Where the code pipes `null` through `Number(...)` (which yields `0`) the
  coercion is embedded explicitly at the use site.
* ISO timestamp strings are modelled as epoch milliseconds (`Int`); a string
  that `new Date(...)` cannot parse is modelled as `none`.
* Async network enrichment (`fetchMoveInDate`, geocoding, route lookups) and
  the auxiliary raw-date parser `parseFlatfoxMoveInDate` are modelled as an
  explicit environment of functions (`Env`), fixed for a scan, mirroring the
  caches-plus-HTTP collaborators the script awaits.
* JS strings are modelled as `String`; the few regexes involved are embedded
  as explicit character-level scanners, with the NFD-plus-strip-diacritics
  normalisation of `normalizeKeyText` embedded as a character fold over the
  accented characters occurring in the data.
-/

namespace FlatScrap

/-! ## Basic JS-semantics helpers -/

/-- JS `Math.round` on a rational: round half toward positive infinity. -/
def jsRound (q : ℚ) : ℤ := ⌊q + 1/2⌋

/-- `toPositiveNumber(value)`: `Number.isFinite(n) && n > 0 ? n : null`.
`null` coerces to `0`, which is not positive, hence `none ↦ none`. -/
def toPositiveNumber (v : Option ℚ) : Option ℚ :=
  match v with
  | some n => if 0 < n then some n else none
  | none => none

/-- `toNumberOrNull(value)`: identity on an already-numeric optional field. -/
def toNumberOrNull (v : Option ℚ) : Option ℚ := v

/-- `toDurationMinutesOrNull(value)`: `toNumberOrNull` then strictly positive. -/
def toDurationMinutesOrNull (v : Option ℚ) : Option ℚ :=
  match toNumberOrNull v with
  | some n => if 0 < n then some n else none
  | none => none

/-- Digit list to the natural number JS `Number` would produce for a
digit-only string (float rounding for astronomically long strings ignored). -/
def digitsToNat (cs : List Char) : ℕ :=
  cs.foldl (fun a c => a * 10 + (c.toNat - 48)) 0

/-- JS `String.prototype.trim` on a character list. -/
def jsTrimList (cs : List Char) : List Char :=
  ((cs.dropWhile Char.isWhitespace).reverse.dropWhile Char.isWhitespace).reverse

/-- JS trim on a `String`. -/
def jsTrim (s : String) : String := String.mk (jsTrimList s.toList)

/-- `.replace(/\n{2,}/g, '\n')`: collapse every run of newlines to one. -/
def collapseNewlines : List Char → List Char
  | [] => []
  | [c] => [c]
  | c₁ :: c₂ :: rest =>
    if c₁ = '\n' ∧ c₂ = '\n' then collapseNewlines (c₂ :: rest)
    else c₁ :: collapseNewlines (c₂ :: rest)

/-- First maximal digit run of a string (the JS `/(\d+)/` first match). -/
def firstDigitRun (cs : List Char) : Option (List Char) :=
  match cs.dropWhile (fun c => ¬ c.isDigit) with
  | [] => none
  | rest => some (rest.takeWhile Char.isDigit)

/-- `sanitizeTravelText(value)`: keep trimmed text unless its first number is 0. -/
def sanitizeTravelText (s : String) : String :=
  let text := jsTrim s
  if text = "" then ""
  else
    match firstDigitRun text.toList with
    | none => text
    | some run => if 0 < digitsToNat run then text else ""

/-- Format an integral or half-integral rational the way JS prints the
numbers occurring in this pipeline (`2 ↦ "2"`, `2.5 ↦ "2.5"`). -/
def fmtNum (q : ℚ) : String :=
  if q.den = 1 then toString q.num
  else if q.den = 2 then toString (q.num / 2) ++ ".5"
  else toString q

/-- `Number(rawKm.toFixed(1))`-style one-decimal rendering used for
distance display strings (never inspected by a claim). -/
def fmtFixed1 (q : ℚ) : String :=
  let r := jsRound (q * 10)
  toString (r / 10) ++ "." ++ toString (r % 10).natAbs

/-! ## `normalizeKeyText` and friends

`normalizeKeyText` does `NFD → strip \p{Diacritic} → toLowerCase →
[^a-z0-9]+ → ' ' → collapse spaces → trim`.  NFD followed by stripping
diacritics maps each precomposed Latin letter to its base letter; the fold
below embeds that for the accented characters this pipeline's data uses.
After this normalisation a string consists only of `[a-z0-9 ]`, so the later
word-boundary regexes (`\b\d{4}\b`, `\bch\b`, `\bde\b`, `\bsaint\b`) act
exactly on whole space-delimited tokens, which is how they are embedded. -/

/-- Lowercase and strip the diacritic of one character. -/
def foldChar (c : Char) : Char :=
  if c.val ≤ 0x7f then c.toLower
  else match c with
  | 'à' | 'â' | 'ä' | 'á' | 'ã' | 'å' | 'À' | 'Â' | 'Ä' | 'Á' | 'Ã' | 'Å' => 'a'
  | 'é' | 'è' | 'ê' | 'ë' | 'É' | 'È' | 'Ê' | 'Ë' => 'e'
  | 'î' | 'ï' | 'í' | 'ì' | 'Î' | 'Ï' | 'Í' | 'Ì' => 'i'
  | 'ô' | 'ö' | 'ó' | 'ò' | 'õ' | 'Ô' | 'Ö' | 'Ó' | 'Ò' | 'Õ' => 'o'
  | 'û' | 'ü' | 'ù' | 'ú' | 'Û' | 'Ü' | 'Ù' | 'Ú' => 'u'
  | 'ç' | 'Ç' => 'c'
  | 'ñ' | 'Ñ' => 'n'
  | 'ÿ' | 'Ÿ' => 'y'
  | _ => c

/-- Is the character kept (as itself) by `normalizeKeyText`'s
`[^a-z0-9]+ → ' '` step after the case/diacritic fold? -/
def isKeyChar (c : Char) : Bool :=
  ('a' ≤ c ∧ c ≤ 'z') ∨ ('0' ≤ c ∧ c ≤ '9')

/-- Split a character list into its maximal space-free runs
(`aux` carries the reversed current token). -/
def spaceTokensAux : List Char → List Char → List String
  | cur, [] => if cur = [] then [] else [String.mk cur.reverse]
  | cur, c :: rest =>
    if c = ' ' then
      if cur = [] then spaceTokensAux [] rest
      else String.mk cur.reverse :: spaceTokensAux [] rest
    else spaceTokensAux (c :: cur) rest

/-- The space-delimited tokens of a string. -/
def spaceTokens (cs : List Char) : List String := spaceTokensAux [] cs

/-- The space-delimited tokens of `normalizeKeyText value`. -/
def normalizeKeyTokens (s : String) : List String :=
  spaceTokens (s.toList.map (fun c =>
    let c' := foldChar c
    if isKeyChar c' then c' else ' '))

/-- Join strings with single spaces (collapse-and-trim result). -/
def joinSpaced : List String → String
  | [] => ""
  | [t] => t
  | t :: rest => t ++ " " ++ joinSpaced rest

/-- `normalizeKeyText(value)`. -/
def normalizeKeyText (s : String) : String :=
  joinSpaced (normalizeKeyTokens s)

/-- Swiss canton abbreviations used as city suffixes. -/
def SWISS_CANTON_CODES : List String :=
  ["ag", "ai", "ar", "be", "bl", "bs", "fr", "ge", "gl", "gr",
   "ju", "lu", "ne", "nw", "ow", "sg", "sh", "so", "sz", "tg",
   "ti", "ur", "vd", "vs", "zg", "zh"]

/-- `normalizeAreaToken(value)`: normalise, `saint → st`, drop `de`, strip a
trailing canton code when more than one token remains. -/
def normalizeAreaToken (s : String) : String :=
  let toks := ((normalizeKeyTokens s).map
      (fun t => if t = "saint" then "st" else t)).filter (fun t => t ≠ "de")
  let toks :=
    if 1 < toks.length ∧ toks.getLast? ∈ SWISS_CANTON_CODES.map some
    then toks.dropLast else toks
  joinSpaced toks

/-- Does `sub` occur as a contiguous run inside `hay`? -/
def infixCheck (sub : List Char) : List Char → Bool
  | [] => sub.isEmpty
  | c :: rest => sub.isPrefixOf (c :: rest) || infixCheck sub rest

/-- JS `String.prototype.includes` (substring test). -/
def jsIncludes (hay sub : String) : Bool :=
  infixCheck sub.toList hay.toList

/-- JS `String.prototype.toLowerCase`, restricted to the ASCII range (the
configured keywords and source texts this pipeline compares are either
already lowercase or ASCII). -/
def jsLower (s : String) : String := String.mk (s.toList.map Char.toLower)

/-! ## Data model -/

/-- One listing record.  A single structure models both the raw scraped shape
and the tracker entry (the script merges them with object spreads); fields a
raw record does not carry default to `none` / `""` / `[]` / `false`. -/
structure Item where
  id : String := ""
  sourceId : String := ""
  source : String := ""
  url : String := ""
  title : String := ""
  objectType : String := ""
  address : String := ""
  area : String := ""
  rooms : Option ℚ := none
  surfaceM2 : Option ℚ := none
  totalChf : Option ℚ := none
  priceRaw : String := ""
  imageUrls : List String := []
  listingStage : String := ""
  movingDateRaw : String := ""
  providerName : String := ""
  agencyName : String := ""
  agencyUrl : String := ""
  publishedAt : Option Int := none
  firstSeenAt : Option Int := none
  lastSeenAt : Option Int := none
  removedAt : Option Int := none
  -- tracker-owned user state
  status : String := ""
  notes : String := ""
  pinned : Bool := false
  missingCount : ℕ := 0
  active : Bool := false
  isRemoved : Bool := false
  isNew : Bool := false
  duplicateSources : List String := []
  -- derived / eligibility fields
  excludedType : Bool := false
  sizeEligible : Bool := false
  isPearl : Bool := false
  withinHardBudget : Bool := false
  aboveMinBudget : Bool := false
  publishedAgeDays : Option Int := none
  maxPublishedAgeDays : Option ℚ := none
  publicationEligible : Bool := false
  locationEligible : Bool := false
  locationFilterReason : String := ""
  nonSpeculativeEligible : Bool := false
  nonSpeculativeFilterReason : String := ""
  display : Bool := false
  filterReason : String := ""
  priority : String := ""
  score : ℤ := 0
  scoreBreakdown : List String := []
  scoreTooltip : String := ""
  -- enrichment fields
  entryDateText : Option String := none
  entryDateFetched : Bool := false
  distanceKm : Option ℚ := none
  distanceText : String := ""
  distanceComputed : Bool := false
  distanceFromWorkAddress : String := ""
  driveMinutes : Option ℚ := none
  driveText : String := ""
  transitMinutes : Option ℚ := none
  transitText : String := ""
  deriving Repr, DecidableEq

/-- One configured search area (`label`, `slug`). -/
structure Area where
  label : String := ""
  slug : String := ""
  deriving Repr, DecidableEq

/-- `config.filters.pearl`. -/
structure PearlCfg where
  enabled : Option Bool := none
  minRooms : Option ℚ := none
  minSurfaceM2 : Option ℚ := none
  keywords : List String := []
  minHits : Option ℕ := none
  deriving Repr, DecidableEq

/-- `config.filters`. -/
structure Filters where
  maxTotalChf : Option ℚ := none
  maxTotalHardChf : Option ℚ := none
  maxPearlTotalChf : Option ℚ := none
  minTotalChf : Option ℚ := none
  minRoomsPreferred : Option ℚ := none
  minSurfaceM2Preferred : Option ℚ := none
  minSurfaceM2Fallback : Option ℚ := none
  allowStudioTransition : Bool := false
  allowMissingSurface : Option Bool := none
  maxPublishedAgeDays : Option ℚ := none
  missingScansBeforeRemoved : Option ℕ := none
  excludedObjectTypeKeywords : Option (List String) := none
  pearl : PearlCfg := {}
  nonSpeculativeOnly : Bool := false
  nonSpeculativeGroups : List String := []
  deriving Repr, DecidableEq

/-- Profile configuration (the parts the reconciliation pipeline reads). -/
structure Config where
  filters : Filters := {}
  areas : List Area := []
  /-- `config.sources?.anibis` (`some false` models the explicit `=== false`). -/
  anibisSource : Option Bool := none
  deriving Repr, DecidableEq

/-! ## Eligibility Engine -/

/-- `publishedAgeDays(value)`: days elapsed since the timestamp, floored,
clamped at 0; `null`/unparseable dates give `null`. -/
def publishedAgeDays (v : Option Int) (now : Int) : Option Int :=
  v.map (fun ts => max 0 ((now - ts).fdiv 86400000))

/-- `resolveMaxPublishedAgeDays(config)`: explicit positive value or 30. -/
def resolveMaxPublishedAgeDays (cfg : Config) : ℚ :=
  match cfg.filters.maxPublishedAgeDays with
  | none => 30
  | some v => if 0 < v then v else 30

/-- Result shape of `publicationEligibility`. -/
structure PubMeta where
  eligible : Bool
  ageDays : Option Int
  maxAgeDays : Option ℚ
  deriving Repr, DecidableEq

/-- `publicationEligibility(item, config)`.  The source's `maxAgeDays == null`
early return is unreachable because `resolveMaxPublishedAgeDays` always
returns a number, so it is not modelled as a separate branch. -/
def publicationEligibility (item : Item) (cfg : Config) (now : Int) : PubMeta :=
  let maxAgeDays := resolveMaxPublishedAgeDays cfg
  match publishedAgeDays item.publishedAt now with
  | none => ⟨true, none, some maxAgeDays⟩
  | some a => ⟨decide ((a : ℚ) ≤ maxAgeDays), some a, some maxAgeDays⟩

/-- `locationEligibility()`: unconditionally eligible. -/
def locationEligibility : Bool × String := (true, "")

/-- `DEFAULT_NON_SPECULATIVE_GROUPS` (empty in the source). -/
def DEFAULT_NON_SPECULATIVE_GROUPS : List String := []

/-- `resolveNonSpeculativeGroups(config)`. -/
def resolveNonSpeculativeGroups (cfg : Config) : List String :=
  let source := if cfg.filters.nonSpeculativeGroups ≠ [] then
      cfg.filters.nonSpeculativeGroups else DEFAULT_NON_SPECULATIVE_GROUPS
  (source.map normalizeKeyText).filter (fun t => t ≠ "")

/-- `nonSpeculativeEligibility(item, config)`: `(eligible, reason)`. -/
def nonSpeculativeEligibility (item : Item) (cfg : Config) : Bool × String :=
  if ¬ cfg.filters.nonSpeculativeOnly then (true, "")
  else
    let groups := resolveNonSpeculativeGroups cfg
    if groups = [] then (true, "")
    else
      let haystack := normalizeKeyText (String.intercalate " "
        ([item.providerName, item.agencyName, item.agencyUrl,
          item.title, item.notes].filter (fun s => s ≠ "")))
      let eligible := groups.any (fun t => jsIncludes haystack t)
      (eligible, if eligible then "" else "Bailleur hors liste non spéculative")

/-- `isExcludedType(item, config)`. -/
def isExcludedType (item : Item) (cfg : Config) : Bool :=
  let text := jsLower (item.objectType ++ " " ++ item.title)
  let keywords := cfg.filters.excludedObjectTypeKeywords.getD
    ["chambre", "colocation", "wg"]
  keywords.any (fun k => jsIncludes text (jsLower k))

/-- The alternatives of the residential regex
`/appartement|studio|loft|duplex|attique|maison|pi[eè]ces?/` as substrings
(the optional `s` makes `piece`/`pièce` the deciding substrings). -/
def residentialWords : List String :=
  ["appartement", "studio", "loft", "duplex", "attique", "maison",
   "piece", "pièce"]

/-- `isSizeEligible(item, config)`. -/
def isSizeEligible (item : Item) (cfg : Config) : Bool :=
  let minRooms := cfg.filters.minRoomsPreferred.getD 2
  let minSurface := cfg.filters.minSurfaceM2Preferred.getD 0
  let minSurfaceFallback := cfg.filters.minSurfaceM2Fallback.getD 0
  let studioAllowed := cfg.filters.allowStudioTransition
  let allowMissingSurface := cfg.filters.allowMissingSurface ≠ some false
  let rooms := item.rooms.getD 0
  let surface := item.surfaceM2.getD 0
  let hasSurface := match item.surfaceM2 with
    | some v => decide (0 < v)
    | none => false
  let descriptor := jsLower (item.objectType ++ " " ++ item.title)
  let looksResidential := residentialWords.any (jsIncludes descriptor)
  -- guardrail: invalid/missing room count (a rational is always finite,
  -- so only `rooms <= 0` remains of the JS test)
  if rooms ≤ 0 then studioAllowed && looksResidential
  else
    let meetsRooms := decide (minRooms ≤ rooms)
    let isBelowRooms := decide (rooms < minRooms)
    if isBelowRooms && studioAllowed then true
    else if 0 < minSurfaceFallback then
      meetsRooms || (hasSurface && decide (minSurfaceFallback ≤ surface))
    else if !meetsRooms then false
    else if minSurface ≤ 0 then true
    else if !hasSurface then allowMissingSurface
    else decide (minSurface ≤ surface)

/-- Default pearl quality keywords. -/
def defaultPearlKeywords : List String :=
  ["renove", "rénové", "balcon", "terrasse", "vue", "quartier paisible",
   "lac", "centre"]

/-- `isPearl(item, config)`. -/
def isPearl (item : Item) (cfg : Config) : Bool :=
  if cfg.filters.pearl.enabled = some false then false
  else
    let hardBudget := cfg.filters.maxTotalHardChf.getD 1450
    let cap := cfg.filters.maxPearlTotalChf.getD 1550
    match item.totalChf with
    | none => false
    | some total =>
      if total ≤ hardBudget ∨ cap < total then false
      else
        let minRooms := cfg.filters.pearl.minRooms.getD 2
        let minSurface := cfg.filters.pearl.minSurfaceM2.getD 50
        let rooms := item.rooms.getD 0
        let surface := item.surfaceM2.getD 0
        if rooms < minRooms ∨ surface < minSurface then false
        else
          let text := jsLower
            (item.title ++ " " ++ item.objectType ++ " " ++ item.address)
          let keywords := if cfg.filters.pearl.keywords ≠ [] then
              cfg.filters.pearl.keywords else defaultPearlKeywords
          let minHits := cfg.filters.pearl.minHits.getD 1
          let hits := (keywords.filter (fun s => jsIncludes text (jsLower s))).length
          minHits ≤ hits

/-- `isLikelyResidentialListing(item)`. -/
def isLikelyResidentialListing (item : Item) : Bool :=
  let text := jsLower (item.objectType ++ " " ++ item.title)
  let url := jsLower item.url
  if ["/location/parking/", "/location/local/", "/location/commerce/",
      "/location/bureau/", "/location/terrain/"].any (jsIncludes url) then false
  else if ["parking", "garage", "place de parc", "place ouverte", "depot",
      "dépot", "surface commerciale", "bureau", "commerce", "arcade",
      "terrain", "atelier"].any (jsIncludes text) then false
  else if residentialWords.any (jsIncludes text) then true
  else
    match toPositiveNumber item.rooms with
    | some _ => true
    | none => false

/-- `isStoredAnibisSaleListing(item)`. -/
def isStoredAnibisSaleListing (item : Item) : Bool :=
  if item.source ≠ "anibis.ch" then false
  else
    let haystack := normalizeKeyText (String.intercalate " "
      ([item.title, item.url, item.notes, item.priceRaw].filter (fun s => s ≠ "")))
    ["a vendre", "a-vendre", "vente", "acheter", "a acheter", "a-acheter"].any
      (jsIncludes haystack)

/-- The fixed status pipeline (`STATUSES`). -/
def STATUSES : List String :=
  ["À contacter", "Visite", "Dossier", "Relance", "Accepté", "Refusé",
   "Sans réponse"]

/-- `normalizeStatus(status)`. -/
def normalizeStatus (status : String) : String :=
  let s := jsTrim status
  if s = "" ∨ s = "À contacter" then "À contacter"
  else if s ∈ ["Visite", "Visite demandée", "Visite planifiée", "Visité"] then
    "Visite"
  else if s ∈ ["Dossier", "Dossier prêt à envoyer", "Dossier envoyé"] then
    "Dossier"
  else if s ∈ ["Relance", "Relance J+2"] then "Relance"
  else if s ∈ ["Accepté", "Refusé", "Sans réponse"] then s
  else "À contacter"

/-- `isStrictEntryDate(v)`: trimmed text matching `^\d{2}\.\d{2}\.2026$`. -/
def isStrictEntryDate (v : Option String) : Bool :=
  match v with
  | none => false
  | some s =>
    match jsTrimList s.toList with
    | [a, b, '.', c, d, '.', '2', '0', '2', '6'] =>
      a.isDigit ∧ b.isDigit ∧ c.isDigit ∧ d.isDigit
    | _ => false

/-! ## The `Entrée :` note line (`mergeNotesWithEntryDate`) -/

/-- Case fold for the `/Entr(?:é|e)e\s*:/i` pattern characters. -/
def charCI (c : Char) : Char := if c = 'É' then 'é' else c.toLower

/-- Try to match `Entr(?:é|e)e\s*:[^\n]*` starting at the head of `cs`;
returns `(matched, rest)` on success.  (`\s*` is followed by a non-space
literal, so the greedy embedding is backtrack-equivalent.) -/
def matchEntreeAt (cs : List Char) : Option (List Char × List Char) :=
  match cs with
  | c₁ :: c₂ :: c₃ :: c₄ :: c₅ :: c₆ :: rest =>
    if charCI c₁ = 'e' ∧ charCI c₂ = 'n' ∧ charCI c₃ = 't' ∧ charCI c₄ = 'r' ∧
        (charCI c₅ = 'e' ∨ charCI c₅ = 'é') ∧ charCI c₆ = 'e' then
      let ws := rest.takeWhile Char.isWhitespace
      match rest.dropWhile Char.isWhitespace with
      | ':' :: tail =>
        some ([c₁, c₂, c₃, c₄, c₅, c₆] ++ ws ++ [':'] ++
          tail.takeWhile (fun c => c ≠ '\n'),
          tail.dropWhile (fun c => c ≠ '\n'))
      | _ => none
    else none
  | _ => none

/-- First match of the `Entrée` line pattern: `(prefix, matched, suffix)`. -/
def findEntree : List Char → Option (List Char × List Char × List Char)
  | [] => none
  | c :: rest =>
    match matchEntreeAt (c :: rest) with
    | some (m, after) => some ([], m, after)
    | none => (findEntree rest).map (fun x => (c :: x.1, x.2.1, x.2.2))

/-- `mergeNotesWithEntryDate(notes, moveInDate)`. -/
def mergeNotesWithEntryDate (notes : String) (moveInDate : Option String) :
    String :=
  match moveInDate with
  | none =>
    let stripped := match findEntree notes.toList with
      | some (p, _, a) => p ++ a
      | none => notes.toList
    String.mk (jsTrimList (collapseNewlines stripped))
  | some d =>
    let line := "Entrée : " ++ d
    match findEntree notes.toList with
    | some (p, _, a) => jsTrim (String.mk p ++ line ++ String.mk a)
    | none => if notes ≠ "" then jsTrim (notes ++ "\n" ++ line) else line

/-! ## Scorer -/

/-- Exact-real floor of `Math.pow(q, 1.12)` for `q > 0`:
`⌊q^(28/25)⌋` is the largest `n` with `n^25 ≤ q^28` (0 for `q ≤ 0`, a case
the caller never reaches since it divides a strictly positive overshoot). -/
def jsPowFloor112 (q : ℚ) : ℕ :=
  if q ≤ 0 then 0
  else ((List.range ((⌈q⌉₊ + 1) ^ 2)).filter
    (fun n => ((n : ℚ)) ^ 25 ≤ q ^ 28)).length - 1

/-- `computeScore(item, config)`: total score and ordered reason list. -/
def computeScore (item : Item) (cfg : Config) : ℤ × List String :=
  let budget := cfg.filters.maxTotalChf.getD 1400
  let minRooms := cfg.filters.minRoomsPreferred.getD 2
  let stage := jsLower item.listingStage
  let stagePart : ℤ × List String :=
    if stage = "off_market" then (20, ["Stage: +20 (signal off-market)"])
    else if stage = "early_market" then (8, ["Stage: +8 (direct régie)"])
    else (0, [])
  let budgetPart : ℤ × List String :=
    match item.totalChf with
    | some total =>
      if total ≤ budget then
        let b := fmtNum budget
        (45, [s!"Budget: +45 (<= CHF {b})"])
      else
        let over := total - budget
        let penalty : ℤ := max 1 (jsPowFloor112 (over / 50) : ℤ)
        let budgetScore := max (-20) (45 - penalty)
        let sgn := if 0 ≤ budgetScore then "+" else ""
        let bs := toString budgetScore
        let ro := toString (jsRound over)
        (budgetScore, [s!"Budget: {sgn}{bs} (CHF +{ro} au-dessus du budget)"])
    | none => (0, ["Budget: 0 (loyer total inconnu)"])
  let rooms := item.rooms.getD 0
  let roomsPart : ℤ × List String :=
    if minRooms ≤ rooms then
      let r := fmtNum rooms
      let m := fmtNum minRooms
      (30, [s!"Pièces: +30 ({r} >= {m})"])
    else if (3 : ℚ) / 2 ≤ rooms then
      let r := fmtNum rooms
      (15, [s!"Pièces: +15 ({r}, option transition)"])
    else (5, ["Pièces: +5 (petite surface)"])
  let studioPart : ℤ × List String :=
    if jsIncludes (jsLower item.objectType) "studio" then
      (-4, ["Type: -4 (studio)"])
    else (0, [])
  let areaKey := normalizeAreaToken item.area
  let zonePart : ℤ × List String :=
    (if areaKey = "vevey" then (5, ["Zone: +5 (Vevey)"]) else (0, []))
  let zonePart2 : ℤ × List String :=
    (if areaKey = "la tour peilz" then (4, ["Zone: +4 (La Tour-de-Peilz)"])
     else (0, []))
  let zonePart3 : ℤ × List String :=
    (if areaKey = "corseaux" then (4, ["Zone: +4 (Corseaux)"]) else (0, []))
  let zonePart4 : ℤ × List String :=
    (if areaKey = "corsier sur vevey" then
      (4, ["Zone: +4 (Corsier-sur-Vevey)"]) else (0, []))
  let referenceTravel :=
    match toPositiveNumber item.transitMinutes with
    | some t => some t
    | none => toPositiveNumber item.driveMinutes
  let travelPart : ℤ × List String :=
    match referenceTravel with
    | some t =>
      let over := max 0 (t - 30)
      let malus : ℤ := ⌊over / 5⌋
      let rt := toString (jsRound t)
      if 0 < malus then
        let m := toString malus
        (-malus, [s!"Trajet Liip: -{m} ({rt} min, -1 pt / 5 min au-delà de 30)"])
      else (0, [s!"Trajet Liip: +0 ({rt} min)"])
    | none => (0, ["Trajet Liip: 0 (durée inconnue)"])
  (stagePart.1 + budgetPart.1 + roomsPart.1 + studioPart.1 + zonePart.1 +
     zonePart2.1 + zonePart3.1 + zonePart4.1 + travelPart.1,
   stagePart.2 ++ budgetPart.2 ++ roomsPart.2 ++ studioPart.2 ++ zonePart.2 ++
     zonePart2.2 ++ zonePart3.2 ++ zonePart4.2 ++ travelPart.2)

/-- `derivePriority(item, config)`. -/
def derivePriority (item : Item) (cfg : Config) : String :=
  let stage := jsLower item.listingStage
  if stage = "off_market" then "A"
  else if stage = "early_market" then "A-"
  else
    let budget := cfg.filters.maxTotalChf.getD 1400
    let hardBudget := cfg.filters.maxTotalHardChf.getD 1550
    let minRooms := cfg.filters.minRoomsPreferred.getD 2
    let rooms := item.rooms.getD 0
    let total := item.totalChf.getD 999999
    let isStudio := jsIncludes (jsLower item.objectType) "studio"
    if total ≤ budget ∧ minRooms ≤ rooms then "A"
    else if total ≤ budget + 80 ∧ minRooms ≤ rooms then "A-"
    else if total ≤ hardBudget ∧ minRooms ≤ rooms then "A-"
    else if isStudio ∨ rooms < minRooms then "B"
    else "B"

/-! ## Dedup Engine -/

/-- `chfToNumber(str)`: keep only digits; empty → `null`. -/
def chfToNumber (s : String) : Option ℕ :=
  let ds := s.toList.filter Char.isDigit
  if ds = [] then none else some (digitsToNat ds)

/-- Character class `[\d''\s.,]` of the flatfox price regex (digit, ASCII or
typographic apostrophe, whitespace, dot, comma). -/
def isPriceChar (c : Char) : Bool :=
  c.isDigit ∨ c = Char.ofNat 39 ∨ c = '’' ∨ c.isWhitespace ∨ c = '.' ∨ c = ','

/-- Scanner for `/CHF\s*([\d''\s.,]+)/i`: at each position where `chf`
starts (case-insensitively), the following maximal price-character run is
the capture when non-empty; otherwise scanning continues.  `\s*` plus a
greedy class that contains `\s` captures the same digits either way. -/
def parseFlatfoxPriceFromTextAux : List Char → Option ℚ
  | [] => none
  | c :: rest =>
    if ((c :: rest).take 3).map Char.toLower = ['c', 'h', 'f'] then
      let run := ((c :: rest).drop 3).takeWhile isPriceChar
      if run ≠ [] then
        toPositiveNumber ((chfToNumber (String.mk run)).map (fun n => (n : ℚ)))
      else parseFlatfoxPriceFromTextAux rest
    else parseFlatfoxPriceFromTextAux rest

/-- `parseFlatfoxPriceFromText(text)`. -/
def parseFlatfoxPriceFromText (s : String) : Option ℚ :=
  parseFlatfoxPriceFromTextAux s.toList

/-- `SOURCE_PRIORITY` (the operative table, second document). -/
def sourcePriority (source : String) : ℕ :=
  if source = "immobilier.ch" then 30
  else if source = "naef.ch" then 27
  else if source = "bernard-nicod.ch" then 26
  else if source = "flatfox.ch" then 20
  else if source = "retraitespopulaires.ch" then 18
  else if source = "anibis.ch" then 15
  else 0

/-- `listingQualityRank(item, trackerMap)`. -/
def listingQualityRank (item : Item) (trackerIds : List String) : ℕ :=
  (if item.id ∈ trackerIds then 1000 else 0) +
  sourcePriority item.source +
  min item.imageUrls.length 6 +
  (if toPositiveNumber item.surfaceM2 ≠ none then 2 else 0) +
  (if toPositiveNumber item.totalChf ≠ none then 2 else 0) +
  (if parseFlatfoxPriceFromText item.priceRaw ≠ none then 1 else 0)

/-- Is the token removed by `.replace(/\b\d{4}\b/g, ' ')` on a
`normalizeKeyText` output (exactly four digits forming a whole token)? -/
def isFourDigitToken (t : String) : Bool :=
  t.length = 4 ∧ t.toList.all Char.isDigit

/-- Split a character list at commas (JS `String.prototype.split(',')`). -/
def splitCommaAux : List Char → List Char → List String
  | cur, [] => [String.mk cur.reverse]
  | cur, c :: rest =>
    if c = ',' then String.mk cur.reverse :: splitCommaAux [] rest
    else splitCommaAux (c :: cur) rest

/-- `address.split(',')`. -/
def splitComma (s : String) : List String := splitCommaAux [] s.toList

/-- Lexicographic code-point comparison (the JS default sort comparator on
these ASCII keys). -/
def strLeChars : List Char → List Char → Bool
  | [], _ => true
  | _ :: _, [] => false
  | a :: as, b :: bs => if a = b then strLeChars as bs else decide (a < b)

/-- `a ≤ b` in JS string order. -/
def strLe (a b : String) : Bool := strLeChars a.toList b.toList

/-- Stable insertion into a sorted list of strings. -/
def insertStr (x : String) : List String → List String
  | [] => [x]
  | y :: t => if strLe x y then x :: y :: t else y :: insertStr x t

/-- Stable ascending sort — JS `Array.prototype.sort()` with the default
code-unit comparator on these ASCII keys. -/
def sortStrings : List String → List String
  | [] => []
  | x :: t => insertStr x (sortStrings t)

/-- Join strings with `|`. -/
def joinBar : List String → String
  | [] => ""
  | [t] => t
  | t :: rest => t ++ "|" ++ joinBar rest

/-- `buildAddressDedupKey(item)`: per comma-part normalisation, drop
postal-code and `ch` tokens, append the area token when absent, sort. -/
def buildAddressDedupKey (item : Item) : String :=
  let areaKey := normalizeAreaToken item.area
  let normalizedParts := (((splitComma (jsTrim item.address)).map (fun part =>
      joinSpaced ((normalizeKeyTokens part).filter
        (fun t => ¬ isFourDigitToken t ∧ t ≠ "ch")))).filter (fun p => p ≠ ""))
  let withArea :=
    if areaKey ≠ "" ∧ ¬ normalizedParts.any (fun p => p = areaKey) then
      normalizedParts ++ [areaKey]
    else normalizedParts
  joinBar (sortStrings withArea)

/-- `buildCrossSourceDedupKey(item)`.  `Number(null) = 0`, so a `null`
rooms/surface contributes `"0"` rather than `"na"` (only a missing field
would give `"na"`; canonical records always carry the keys). -/
def buildCrossSourceDedupKey (item : Item) : Option String :=
  let address := buildAddressDedupKey item
  if address = "" then none
  else
    let rooms := match item.rooms with
      | some r => toString ⌊r⌋
      | none => "0"
    let surface := match item.surfaceM2 with
      | some v => toString (jsRound (v / 5) * 5)
      | none => "0"
    let price := match item.totalChf with
      | some v => if 0 < v then toString (jsRound (v / 50) * 50) else "na"
      | none => "na"
    if rooms = "na" ∧ surface = "na" ∧ price = "na" then none
    else some (address ++ "|r:" ++ rooms ++ "|s:" ++ surface ++ "|p:" ++ price)

/-- JS `new Set(list)` materialised as a first-occurrence list. -/
def jsSetList (l : List String) : List String :=
  l.foldl (fun acc s => if s ∈ acc then acc else acc ++ [s]) []

/-- Ordered association-list update keeping the original position
(JS `Map.prototype.set` on an existing key). -/
def updateKey (m : List (String × Item)) (k : String) (v : Item) :
    List (String × Item) :=
  m.map (fun kv => if kv.1 = k then (k, v) else kv)

/-- Lookup in the ordered association list. -/
def lookupKey (m : List (String × Item)) (k : String) : Option Item :=
  (m.find? (fun kv => kv.1 = k)).map (fun kv => kv.2)

/-- One step of the `dedupeCrossSourceListings` loop. -/
def dedupeStep (trackerIds : List String)
    (acc : List (String × Item) × List Item) (item : Item) :
    List (String × Item) × List Item :=
  match buildCrossSourceDedupKey item with
  | none => (acc.1, acc.2 ++ [{ item with duplicateSources := [item.source] }])
  | some key =>
    match lookupKey acc.1 key with
    | none =>
      (acc.1 ++ [(key, { item with duplicateSources := [item.source] })], acc.2)
    | some existing =>
      let keepIncoming :=
        listingQualityRank existing trackerIds < listingQualityRank item trackerIds
      let winner := if keepIncoming then item else existing
      let combined := jsSetList
        (existing.duplicateSources ++ [item.source, winner.source])
      (updateKey acc.1 key { winner with duplicateSources := combined }, acc.2)

/-- `dedupeCrossSourceListings(items, trackerMap)`: keyed map values in
insertion order, then pass-through records (no usable key). -/
def dedupeCrossSourceListings (items : List Item) (trackerIds : List String) :
    List Item :=
  let acc := items.foldl (dedupeStep trackerIds) ([], [])
  acc.1.map (fun kv => kv.2) ++ acc.2

/-! ## Target areas -/

/-- `buildTargetAreaSet(areas)`: normalised label and slug tokens. -/
def buildTargetAreaSet (areas : List Area) : List String :=
  areas.foldl (fun acc a =>
    let acc :=
      let k := normalizeAreaToken a.label
      if k ≠ "" ∧ k ∉ acc then acc ++ [k] else acc
    let k := normalizeAreaToken a.slug
    if k ≠ "" ∧ k ∉ acc then acc ++ [k] else acc) []

/-- `isTargetAreaCity(city, targetAreaSet)`. -/
def isTargetAreaCity (city : String) (targetAreaSet : List String) : Bool :=
  if targetAreaSet = [] then true
  else
    let key := normalizeAreaToken city
    if key = "" then false
    else key ∈ targetAreaSet

/-! ## Tracker Reconciler

The awaited network enrichment (move-in-date API, geocoding, route lookup)
and the raw-date parser are modelled as a fixed environment of functions —
the caches-plus-HTTP collaborators of one scan. -/

/-- Result shape of `computeDistanceFromWork`. -/
structure DistMeta where
  computed : Bool := false
  distanceKm : Option ℚ := none
  distanceText : String := ""
  listingAddress : String := ""
  /-- opaque coordinate token standing for `listingCoords` -/
  listingCoords : Option String := none
  deriving Repr, DecidableEq

/-- Enrichment environment: the external collaborators awaited by the scan,
fixed for one run (same caches, same network answers, fixed work address). -/
structure Env where
  /-- `fetchMoveInDate(objectId)` → `(fetched, date)` -/
  fetchMoveInDate : String → Bool × Option String := fun _ => (false, none)
  /-- `parseFlatfoxMoveInDate(raw)` (raw-date parser, opaque here) -/
  parseFlatfoxMoveInDate : String → Option String := fun _ => none
  /-- `computeDistanceFromWork(item, workCoords, geocodeCache)` -/
  computeDistanceFromWork : Item → DistMeta := fun _ => {}
  /-- `fetchDrivingMinutes(workCoords, listingCoords, routeCache)` -/
  fetchDrivingMinutes : Option String → Option ℚ := fun _ => none
  /-- `fetchTransitMinutes(workAddress, listingAddress, routeCache)` -/
  fetchTransitMinutes : String → Option ℚ := fun _ => none
  workAddress : String := ""

/-- `Math.max(1, Number(config.filters?.missingScansBeforeRemoved ?? 2))`. -/
def missingScansBeforeRemoved (cfg : Config) : ℕ :=
  max 1 (cfg.filters.missingScansBeforeRemoved.getD 2)

/-- The derived-field block shared verbatim by the present-item loop and the
absent-item loop: recompute every eligibility field and `display`. -/
def computeDerivedFields (cfg : Config) (now : Int) (it : Item) : Item :=
  let minBudget := cfg.filters.minTotalChf.getD 0
  let hardBudget := cfg.filters.maxTotalHardChf.getD 1450
  let pub := publicationEligibility it cfg now
  let loc := locationEligibility
  let nonSpec := nonSpeculativeEligibility it cfg
  let excluded := isExcludedType it cfg
  let size := isSizeEligible it cfg
  let pearl := isPearl it cfg
  let withinHard := match it.totalChf with
    | some t => decide (t ≤ hardBudget)
    | none => false
  let aboveMin := decide (minBudget ≤ 0) ||
    (match it.totalChf with
     | some t => decide (minBudget ≤ t)
     | none => false)
  let isOffMarketListing := jsLower it.listingStage = "off_market"
  let display :=
    if isOffMarketListing then !excluded && loc.1 && nonSpec.1
    else !excluded && size && aboveMin && (withinHard || pearl) &&
      pub.eligible && loc.1 && nonSpec.1
  { it with
    excludedType := excluded, sizeEligible := size, isPearl := pearl,
    withinHardBudget := withinHard, aboveMinBudget := aboveMin,
    publishedAgeDays := pub.ageDays, maxPublishedAgeDays := pub.maxAgeDays,
    publicationEligible := pub.eligible,
    locationEligible := loc.1, locationFilterReason := loc.2,
    nonSpeculativeEligible := nonSpec.1, nonSpeculativeFilterReason := nonSpec.2,
    display := display }

/-- The first-failing `filterReason` chain shared by both loops (evaluated
only when `display` is false). -/
def filterReasonFor (cfg : Config) (it : Item) : String :=
  let minBudget := cfg.filters.minTotalChf.getD 0
  let hardBudget := cfg.filters.maxTotalHardChf.getD 1450
  let isOffMarketListing := jsLower it.listingStage = "off_market"
  if it.excludedType then "Type exclu (chambre/colocation)"
  else if !it.locationEligible then
    (if it.locationFilterReason ≠ "" then it.locationFilterReason
     else "Hors zones ciblées")
  else if !it.nonSpeculativeEligible then
    (if it.nonSpeculativeFilterReason ≠ "" then it.nonSpeculativeFilterReason
     else "Bailleur hors liste non spéculative")
  else if isOffMarketListing then "Signal off-market non prioritaire"
  else if !it.aboveMinBudget then
    let mb := fmtNum minBudget
    s!"En dessous de CHF {mb}"
  else if !it.sizeEligible then "Taille non prioritaire"
  else if !it.publicationEligible then
    let md := (it.maxPublishedAgeDays.map fmtNum).getD "null"
    s!"Annonce trop ancienne (> {md} jours)"
  else
    let hb := fmtNum hardBudget
    s!"Au-dessus de CHF {hb}"

/-- `${Math.round(m)} min` -/
def fmtMinutes (m : ℚ) : String :=
  let r := toString (jsRound m)
  s!"{r} min"

/-- The first two mutations of the present-item loop: `priority` and
`lastSeenAt`. -/
def presentBase (cfg : Config) (now : Int) (item0 : Item) : Item :=
  { item0 with
    priority := derivePriority item0 cfg, lastSeenAt := some now }

/-- The pearl priority upgrade (`A★` for over-hard-budget pearls). -/
def pearlPriorityOverride (it : Item) : Item :=
  if it.isPearl && !it.withinHardBudget then { it with priority := "A★" }
  else it

/-- The move-in-date enrichment: immobilier.ch object API, else the flatfox
raw moving date filtered through the strict date format. -/
def entryDateEnrich (env : Env) (it : Item) : Item :=
  if it.source = "immobilier.ch" then
    let r := env.fetchMoveInDate
      (if it.sourceId ≠ "" then it.sourceId else it.id)
    { it with entryDateText := r.2, entryDateFetched := r.1 }
  else
    let moveInDate := env.parseFlatfoxMoveInDate it.movingDateRaw
    let entryDateText :=
      if isStrictEntryDate moveInDate then moveInDate else none
    { it with
      entryDateText := entryDateText,
      entryDateFetched := entryDateText.isSome }

/-- The display-gated enrichment block (distance, drive, transit). -/
def enrichDisplayTrue (env : Env) (it : Item) : Item :=
  let entry := entryDateEnrich env it
  let meta := env.computeDistanceFromWork entry
  let dm := toDurationMinutesOrNull (env.fetchDrivingMinutes meta.listingCoords)
  let tm := toDurationMinutesOrNull (env.fetchTransitMinutes meta.listingAddress)
  { entry with
    distanceKm := meta.distanceKm, distanceText := meta.distanceText,
    distanceComputed := meta.computed,
    distanceFromWorkAddress := env.workAddress,
    driveMinutes := dm,
    driveText := match dm with
      | some d => fmtMinutes d
      | none => "",
    transitMinutes := tm,
    transitText := match tm with
      | some t => fmtMinutes t
      | none => "" }

/-- The non-displayed branch: null out every enrichment field. -/
def enrichDisplayFalse (env : Env) (it : Item) : Item :=
  { it with
    entryDateText := none, entryDateFetched := false,
    distanceKm := none, distanceText := "", distanceComputed := false,
    distanceFromWorkAddress := env.workAddress,
    driveMinutes := none, driveText := "",
    transitMinutes := none, transitText := "" }

/-- Enrichment is gated on `display`. -/
def enrichGate (env : Env) (it : Item) : Item :=
  if it.display then enrichDisplayTrue env it else enrichDisplayFalse env it

/-- The trailing `filterReason` assignment of the present-item loop. -/
def setFilterReason (cfg : Config) (it : Item) : Item :=
  { it with
    filterReason := if it.display then "" else filterReasonFor cfg it }

/-- The per-item body of the present-listing loop before the tracker merge:
priority, `lastSeenAt`, derived fields, the pearl priority upgrade, the
display-gated enrichment and the `filterReason`. -/
def enrichPresent (cfg : Config) (env : Env) (now : Int) (item0 : Item) :
    Item :=
  setFilterReason cfg (enrichGate env (pearlPriorityOverride
    (computeDerivedFields cfg now (presentBase cfg now item0))))

/-- The present-and-tracked merge (`{...existing, ...item, <overrides>}`).
The enriched batch item overrides every scraped, derived and enrichment
field; the fields a raw batch record does not carry and that survive the
spread from `existing` are either overridden explicitly below
(user-owned state, timestamps) or recomputed by the score pass. -/
def mergePresent (existing itE : Item) (prevIds : List String) (now : Int) :
    Item :=
  let previousValidDate :=
    if isStrictEntryDate existing.entryDateText then existing.entryDateText
    else none
  let apiProvidedDate :=
    if isStrictEntryDate itE.entryDateText then itE.entryDateText else none
  let entryDateText :=
    if itE.entryDateFetched then apiProvidedDate else previousValidDate
  let distanceKm :=
    if itE.distanceComputed then itE.distanceKm else existing.distanceKm
  let distanceText :=
    if itE.distanceComputed then itE.distanceText
    else if existing.distanceText ≠ "" then existing.distanceText
    else match existing.distanceKm with
      | some k => fmtFixed1 k ++ " km"
      | none => ""
  let driveMinutes :=
    match toDurationMinutesOrNull itE.driveMinutes with
    | some d => some d
    | none => toDurationMinutesOrNull existing.driveMinutes
  let driveText :=
    match driveMinutes with
    | some d => fmtMinutes d
    | none => sanitizeTravelText existing.driveText
  let transitMinutes :=
    match toDurationMinutesOrNull itE.transitMinutes with
    | some t => some t
    | none => toDurationMinutesOrNull existing.transitMinutes
  let transitText :=
    match transitMinutes with
    | some t => fmtMinutes t
    | none => sanitizeTravelText existing.transitText
  { itE with
    pinned := existing.pinned,
    entryDateText := entryDateText,
    distanceKm := distanceKm, distanceText := distanceText,
    driveMinutes := driveMinutes, driveText := driveText,
    transitMinutes := transitMinutes, transitText := transitText,
    publishedAt := match itE.publishedAt with
      | some p => some p
      | none => existing.publishedAt,
    status := normalizeStatus
      (if existing.status = "" then "À contacter" else existing.status),
    notes := mergeNotesWithEntryDate existing.notes entryDateText,
    firstSeenAt := some (existing.firstSeenAt.getD now),
    active := true, isRemoved := false, removedAt := none,
    missingCount := 0,
    isNew := decide (itE.id ∉ prevIds) }

/-- The present-but-untracked entry creation. -/
def freshEntry (itE : Item) (now : Int) : Item :=
  let entryDateText :=
    if isStrictEntryDate itE.entryDateText then itE.entryDateText else none
  let dm := toDurationMinutesOrNull itE.driveMinutes
  let tm := toDurationMinutesOrNull itE.transitMinutes
  { itE with
    entryDateText := entryDateText,
    distanceKm := if itE.distanceComputed then itE.distanceKm else none,
    distanceText := if itE.distanceComputed then itE.distanceText else "",
    driveMinutes := dm,
    driveText := match dm with
      | some d => fmtMinutes d
      | none => "",
    transitMinutes := tm,
    transitText := match tm with
      | some t => fmtMinutes t
      | none => "",
    publishedAt := itE.publishedAt,
    status := "À contacter",
    notes := mergeNotesWithEntryDate "" entryDateText,
    firstSeenAt := some now,
    active := true, isRemoved := false, removedAt := none,
    missingCount := 0, isNew := true }

/-- The refreshed derived-field record of the absent-listing loop
(`refreshed` in the source): recomputed eligibility, the pearl priority
override and the first-failing filter reason, on top of the stale record. -/
def refreshedAbsent (cfg : Config) (now : Int) (old : Item) : Item :=
  let r := computeDerivedFields cfg now old
  let r := { r with
    priority := if r.isPearl && !r.withinHardBudget then "A★"
      else derivePriority old cfg }
  { r with
    filterReason := if r.display then "" else filterReasonFor cfg r }

/-- The immediate-removal push of the absent-listing loop (fast-exit
removal reasons and the non-residential direct-source case). -/
def absentRemovedEntry (now : Int) (old : Item) (reason : String) : Item :=
  { old with
    status := normalizeStatus old.status,
    active := false, isRemoved := true,
    removedAt := some (old.removedAt.getD now),
    missingCount := old.missingCount + 1, isNew := false, display := false,
    filterReason := reason }

/-- The regular absent-listing push: stale-data distance refresh and the
`{...old, ...refreshed, ...}` merge with the miss-count outcome. -/
def absentRegularEntry (cfg : Config) (env : Env) (now : Int)
    (old refreshed : Item) : Item :=
  let shouldRemove :=
    if refreshed.display = false then false
    else decide (missingScansBeforeRemoved cfg ≤ old.missingCount + 1)
  let distanceKm₀ := toNumberOrNull old.distanceKm
  let distanceText₀ :=
    if old.distanceText ≠ "" then old.distanceText
    else match distanceKm₀ with
      | some k => fmtFixed1 k ++ " km"
      | none => ""
  let driveMinutes₀ := toDurationMinutesOrNull old.driveMinutes
  let transitMinutes₀ := toDurationMinutesOrNull old.transitMinutes
  let refreshedEnrichment :=
    if refreshed.display = true ∧ (shouldRemove = false ∨
        driveMinutes₀ = none ∨ transitMinutes₀ = none ∨
        distanceKm₀ = none) then
      let meta := env.computeDistanceFromWork old
      if meta.computed then
        (meta.distanceKm, meta.distanceText,
         (if driveMinutes₀ = none then
            toDurationMinutesOrNull (env.fetchDrivingMinutes meta.listingCoords)
          else driveMinutes₀),
         (if transitMinutes₀ = none then
            toDurationMinutesOrNull (env.fetchTransitMinutes meta.listingAddress)
          else transitMinutes₀))
      else (distanceKm₀, distanceText₀, driveMinutes₀, transitMinutes₀)
    else (distanceKm₀, distanceText₀, driveMinutes₀, transitMinutes₀)
  let distanceKm := refreshedEnrichment.1
  let distanceText := refreshedEnrichment.2.1
  let driveMinutes := refreshedEnrichment.2.2.1
  let transitMinutes := refreshedEnrichment.2.2.2
  { refreshed with
    distanceKm := distanceKm, distanceText := distanceText,
    driveMinutes := driveMinutes,
    driveText := match driveMinutes with
      | some d => fmtMinutes d
      | none => sanitizeTravelText old.driveText,
    transitMinutes := transitMinutes,
    transitText := match transitMinutes with
      | some t => fmtMinutes t
      | none => sanitizeTravelText old.transitText,
    distanceFromWorkAddress :=
      if old.distanceFromWorkAddress ≠ "" then old.distanceFromWorkAddress
      else env.workAddress,
    status := normalizeStatus old.status,
    active := !shouldRemove, isRemoved := shouldRemove,
    removedAt := if shouldRemove then some (old.removedAt.getD now)
      else none,
    missingCount := old.missingCount + 1, isNew := false }

/-- `duplicateOfActive`: a still-displayable stale record whose dedup key
is now claimed by an active record of the current batch. -/
def duplicateOfActive (activeDedupKeys : List String)
    (old refreshed : Item) : Bool :=
  refreshed.display &&
    (match buildCrossSourceDedupKey old with
     | some k => decide (k ∈ activeDedupKeys)
     | none => false)

/-- `anibisSourceDisabled`: a stored Anibis record whose source was
explicitly disabled in the configuration. -/
def anibisSourceDisabled (cfg : Config) (old : Item) : Bool :=
  decide (old.source = "anibis.ch") && decide (cfg.anibisSource = some false)

/-- The disjunction of the three fast-exit removal reasons. -/
def absentFastCond (cfg : Config) (activeDedupKeys : List String)
    (old refreshed : Item) : Bool :=
  duplicateOfActive activeDedupKeys old refreshed ||
    isStoredAnibisSaleListing old || anibisSourceDisabled cfg old

/-- The `filterReason` of a fast-exit removal. -/
def absentFastReason (activeDedupKeys : List String)
    (old refreshed : Item) : String :=
  if duplicateOfActive activeDedupKeys old refreshed = true then
    "Doublon inter-source"
  else if isStoredAnibisSaleListing old = true then
    "Annonce vente exclue (Anibis)"
  else "Source Anibis désactivée"

/-- The in-scope, residential tail of the absent-listing loop: the three
fast-exit removal reasons, else the regular push. -/
def absentTail (cfg : Config) (env : Env) (activeDedupKeys : List String)
    (now : Int) (old refreshed : Item) : Item :=
  if absentFastCond cfg activeDedupKeys old refreshed then
    absentRemovedEntry now old
      (absentFastReason activeDedupKeys old refreshed)
  else absentRegularEntry cfg env now old refreshed

/-- The per-listing body of the absent-listing loop. -/
def processAbsentOld (cfg : Config) (env : Env)
    (activeDedupKeys : List String) (targetAreaSet : List String)
    (now : Int) (old : Item) : Item :=
  if ¬ isTargetAreaCity old.area targetAreaSet then
    { old with
      status := normalizeStatus old.status,
      active := false, isRemoved := false, removedAt := old.removedAt,
      missingCount := old.missingCount + 1, isNew := false, display := false,
      filterReason := "Hors zone suivie" }
  else if (jsLower old.source = "naef.ch" ∨ jsLower old.source = "bernard-nicod.ch")
      ∧ ¬ isLikelyResidentialListing old then
    absentRemovedEntry now old "Objet non résidentiel (filtré)"
  else
    absentTail cfg env activeDedupKeys now old (refreshedAbsent cfg now old)

/-- JS `new Map(list.map(x => [x.id, x])).get(k)`: the LAST entry wins. -/
def jsMapGet (l : List Item) (k : String) : Option Item :=
  l.reverse.find? (fun e => e.id = k)

/-- The final score pass over every merged entry. -/
def applyScore (cfg : Config) (it : Item) : Item :=
  let m := computeScore it cfg
  let sc := toString m.1
  { it with
    score := m.1, scoreBreakdown := m.2,
    scoreTooltip := String.intercalate " · " (s!"Score: {sc}" :: m.2) }

/-- The per-item body of the present-listing loop: enrichment, then either
the tracked merge or a fresh entry. -/
def presentOne (cfg : Config) (env : Env) (prevIds : List String)
    (trackerListings : List Item) (now : Int) (it0 : Item) : Item :=
  let itE := enrichPresent cfg env now it0
  match jsMapGet trackerListings itE.id with
  | some existing => mergePresent existing itE prevIds now
  | none => freshEntry itE now

/-- The reconciliation merge pass of `main` (lines 5642–5966): the
present-item loop over the cross-source-deduplicated batch, the
absent-item loop over the previous tracker, then the score pass.  The
subsequent sorting and image-field normalisation do not touch any field
modelled here. -/
def mergeScan (cfg : Config) (env : Env) (dedup : List Item)
    (prevIds : List String) (trackerListings : List Item) (now : Int) :
    List Item :=
  let targetAreaSet := buildTargetAreaSet cfg.areas
  let activeDedupKeys := dedup.filterMap buildCrossSourceDedupKey
  let dedupIds := dedup.map (fun it => it.id)
  let present := dedup.map (presentOne cfg env prevIds trackerListings now)
  let absent := (trackerListings.filter (fun old => old.id ∉ dedupIds)).map
    (processAbsentOld cfg env activeDedupKeys targetAreaSet now)
  (present ++ absent).map (applyScore cfg)

/-- Iterated absent-scan transitions: fold `processAbsentOld` over a list of
scan clocks (fixed configuration, environment, active keys and target set). -/
def absentIterate (cfg : Config) (env : Env) (keys tset : List String)
    (nows : List Int) (old : Item) : Item :=
  nows.foldl (fun it n => processAbsentOld cfg env keys tset n it) old

/-- Claim-side definition (for C9 only): publication eligibility as the
specification's sentence states it — the age since `publishedAt` with
`firstSeenAt` as an approximate fallback when `publishedAt` is unknown,
fail-open when neither is available.  To be compared with the code-side
`publicationEligibility`, which has no such fallback. -/
def publicationEligibilityClaimed (item : Item) (cfg : Config) (now : Int) :
    Bool :=
  let maxAge := resolveMaxPublishedAgeDays cfg
  let age := match publishedAgeDays item.publishedAt now with
    | some a => some a
    | none => publishedAgeDays item.firstSeenAt now
  match age with
  | none => true
  | some a => decide ((a : ℚ) ≤ maxAge)

/-- Equality of the scraped/descriptive fields of two records — the inputs
of every eligibility predicate, of the dedup key and of the fast-exit
removal checks.  The absent-listing transition only rewrites lifecycle,
derived and enrichment fields, so it preserves this relation. -/
structure StaticEq (a b : Item) : Prop where
  id : a.id = b.id
  sourceId : a.sourceId = b.sourceId
  source : a.source = b.source
  url : a.url = b.url
  title : a.title = b.title
  objectType : a.objectType = b.objectType
  address : a.address = b.address
  area : a.area = b.area
  rooms : a.rooms = b.rooms
  surfaceM2 : a.surfaceM2 = b.surfaceM2
  totalChf : a.totalChf = b.totalChf
  priceRaw : a.priceRaw = b.priceRaw
  listingStage : a.listingStage = b.listingStage
  publishedAt : a.publishedAt = b.publishedAt
  notes : a.notes = b.notes
  providerName : a.providerName = b.providerName
  agencyName : a.agencyName = b.agencyName
  agencyUrl : a.agencyUrl = b.agencyUrl

/-! ## Concrete instances used by witnesses and counterexamples -/

/-- Empty profile configuration: every filter at its default. -/
def cfgDflt : Config := {}

/-- Trivial enrichment environment (no network answers). -/
def envDflt : Env := {}

/-- C5: the standard-stage listing fixed by the claim. -/
def itemC5 : Item :=
  { totalChf := some 1500, rooms := some 2, transitMinutes := some 45,
    objectType := "Appartement", area := "Lausanne" }

/-- C5: budget 1400, preferred rooms 2. -/
def cfgC5 : Config :=
  { filters := { maxTotalChf := some 1400, minRoomsPreferred := some 2 } }

/-- C7: record with rooms 2.4 and surface 61. -/
def recC7a : Item :=
  { id := "i1", source := "immobilier.ch",
    address := "Rue de la Gare 12, 1800 Vevey", area := "Vevey",
    rooms := some (12/5), surfaceM2 := some 61, totalChf := some 1500 }

/-- C7: same record but rooms 2.6 and surface 64. -/
def recC7b : Item :=
  { recC7a with
    id := "i2", source := "flatfox.ch",
    rooms := some (13/5), surfaceM2 := some 64 }

/-- C7 (amended): same record but rooms 2.6 and surface 62. -/
def recC7c : Item :=
  { recC7a with
    id := "i3", source := "flatfox.ch",
    rooms := some (13/5), surfaceM2 := some 62 }

/-- C4 witness: lower-quality record (flatfox, rank 24). -/
def wC4a : Item :=
  { id := "w1", source := "flatfox.ch",
    address := "Avenue Reller 7, 1800 Vevey", area := "Vevey",
    rooms := some 3, surfaceM2 := some 70, totalChf := some 1400 }

/-- C4 witness: higher-quality record (immobilier.ch, rank 34). -/
def wC4b : Item :=
  { wC4a with id := "w2", source := "immobilier.ch" }

/-- C8 witness: listing priced exactly at the (default) hard budget. -/
def aC8 : Item :=
  { id := "c8a", totalChf := some 1450, rooms := some 3, surfaceM2 := some 60,
    title := "Bel appartement rénové avec balcon" }

/-- C8 witness: listing priced exactly at the (default) pearl cap, meeting
the pearl minimums and one quality keyword. -/
def bC8 : Item :=
  { aC8 with id := "c8b", totalChf := some 1550 }

/-- C9: listing with unknown `publishedAt` and a four-month-old
`firstSeenAt`. -/
def itemC9 : Item := { id := "c9", publishedAt := none, firstSeenAt := some 0 }

/-- C9: a clock 120 days after `itemC9.firstSeenAt`. -/
def nowC9 : Int := 120 * 86400000

/-- C1 counterexample: a tracked, display-eligible listing (its scan batch
will be empty). -/
def trkC1 : Item :=
  { id := "x1", source := "immobilier.ch",
    address := "Rue de la Gare 12, 1800 Vevey", area := "Vevey",
    rooms := some 3, surfaceM2 := some 70, totalChf := some 1300,
    status := "À contacter", firstSeenAt := some 100, active := true }

/-- C1 witness: a batch listing also present in the tracker. -/
def itC1 : Item :=
  { id := "y1", source := "immobilier.ch", area := "Vevey",
    rooms := some 3, totalChf := some 1300 }

/-- C1 witness: the matching previous tracker entry. -/
def exC1 : Item :=
  { itC1 with
    status := "Visite", firstSeenAt := some 50,
    transitMinutes := some 40 }

/-- C2 counterexample: a stored Anibis listing whose source is disabled. -/
def anbC2 : Item :=
  { id := "a1", source := "anibis.ch", title := "Joli appartement",
    address := "Rue du Lac 3, 1800 Vevey", area := "Vevey",
    rooms := some 3, totalChf := some 1200 }

/-- C2 counterexample: configuration disabling the Anibis source. -/
def cfgC2 : Config := { anibisSource := some false }

/-- C2 witness: a display-eligible tracked listing for the threshold run. -/
def absC2 : Item :=
  { id := "b1", source := "immobilier.ch",
    address := "Rue de la Gare 12, 1800 Vevey", area := "Vevey",
    rooms := some 3, surfaceM2 := some 70, totalChf := some 1300 }

/-- C3 counterexample: tracker entry with a to-be-normalised status and a
blank line inside the notes. -/
def exC3 : Item :=
  { id := "p1", source := "immobilier.ch", area := "Vevey",
    rooms := some 3, totalChf := some 1300, status := "Visite demandée",
    notes := "ligne A\n\nligne B", pinned := true, firstSeenAt := some 77 }

/-- C3 counterexample: the same listing reappearing in the batch. -/
def batC3 : Item :=
  { id := "p1", source := "immobilier.ch", area := "Vevey",
    rooms := some 3, totalChf := some 1350 }

/-- C3 witness: tracker entry with canonical status and clean notes. -/
def exC3w : Item :=
  { id := "q1", source := "immobilier.ch", area := "Vevey",
    rooms := some 3, totalChf := some 1300, status := "Dossier",
    notes := "propriétaire sympa", pinned := true, firstSeenAt := some 42 }

/-- C3 witness: the same listing reappearing in the batch with changed
derived inputs. -/
def batC3w : Item :=
  { id := "q1", source := "immobilier.ch", area := "Vevey",
    rooms := some 2, totalChf := some 1600 }

/-- C10 witness: a tracked listing far above the hard budget
(display-ineligible) already missing for 5 scans. -/
def dOffC10 : Item :=
  { id := "d1", source := "immobilier.ch", area := "Vevey",
    rooms := some 3, totalChf := some 9999, missingCount := 5 }

/-! ## Theorems -/

section DecideEval

attribute [local semireducible] Rat.add Rat.sub Rat.mul Rat.inv Rat.ofScientific

/-- Claim C5 (confirmed): for the fixed standard-stage listing
(total 1500, rooms 2, transit 45, non-studio type, no micro-bonus zone)
under budget 1400 and preferred rooms 2, the scorer returns exactly 70 with
the budget (+43), room (+30) and travel (−3) reasons in that order; the
budget term is `45 − max(1, ⌊(100/50)^1.12⌋) = 43`, where the embedded
integer floor agrees with the real-number power `2^1.12`. -/
theorem computeScore_c5_deterministic :
    computeScore itemC5 cfgC5 =
      (70,
       ["Budget: +43 (CHF +100 au-dessus du budget)",
        "Pièces: +30 (2 >= 2)",
        "Trajet Liip: -3 (45 min, -1 pt / 5 min au-delà de 30)"]) ∧
    (jsPowFloor112 ((1500 - 1400 : ℚ) / 50) : ℤ) =
      ⌊(((1500 : ℝ) - 1400) / 50) ^ (1.12 : ℝ)⌋ ∧
    (45 : ℤ) - max 1 (jsPowFloor112 ((1500 - 1400 : ℚ) / 50) : ℤ) = 43 := by
  refine ⟨by decide, ?_, by decide⟩
  have hq : ((1500 - 1400 : ℚ) / 50) = 2 := by norm_num
  have hr : (((1500 : ℝ) - 1400) / 50) = 2 := by norm_num
  rw [hq, hr]
  have hval : jsPowFloor112 2 = 2 := by decide
  rw [hval]
  have hpos : (0 : ℝ) ≤ (2 : ℝ) ^ (1.12 : ℝ) := Real.rpow_nonneg (by norm_num) _
  have key : ((2 : ℝ) ^ (1.12 : ℝ)) ^ (25 : ℕ) = (2 : ℝ) ^ (28 : ℕ) := by
    rw [← Real.rpow_natCast ((2 : ℝ) ^ (1.12 : ℝ)) 25,
      ← Real.rpow_mul (by norm_num : (0 : ℝ) ≤ 2)]
    rw [show ((1.12 : ℝ) * (25 : ℕ)) = ((28 : ℕ) : ℝ) by norm_num]
    rw [Real.rpow_natCast]
  have h2 : (2 : ℝ) ^ (1.12 : ℝ) < 3 := by
    have hlt : ((2 : ℝ) ^ (1.12 : ℝ)) ^ (25 : ℕ) < (3 : ℝ) ^ (25 : ℕ) := by
      rw [key]; norm_num
    exact (pow_lt_pow_iff_left₀ hpos (by norm_num) (by norm_num)).mp hlt
  have h1 : (2 : ℝ) ≤ (2 : ℝ) ^ (1.12 : ℝ) := by
    have := (Real.rpow_le_rpow_left_iff (by norm_num : (1 : ℝ) < 2)).mpr
      (by norm_num : (1 : ℝ) ≤ 1.12)
    simpa [Real.rpow_one] using this
  have hfl : ⌊(2 : ℝ) ^ (1.12 : ℝ)⌋ = 2 := by
    rw [Int.floor_eq_iff]
    constructor
    · exact_mod_cast h1
    · push_cast
      linarith
  rw [hfl]
  norm_num

/-- Claim C6 (confirmed): for an off-market-stage listing, `display` is
exactly the conjunction of the type-exclusion, location and landlord
(non-speculative) gates; for any other stage it is the full conjunction
including the size, minimum-budget, hard-budget-or-pearl and
publication-age gates. -/
theorem display_c6_offmarket_relaxation (item : Item) (cfg : Config)
    (now : Int) :
    (computeDerivedFields cfg now item).display =
      (if jsLower item.listingStage = "off_market" then
        !isExcludedType item cfg && locationEligibility.1 &&
          (nonSpeculativeEligibility item cfg).1
      else
        !isExcludedType item cfg && isSizeEligible item cfg &&
          (decide (cfg.filters.minTotalChf.getD 0 ≤ 0) ||
            (match item.totalChf with
             | some t => decide (cfg.filters.minTotalChf.getD 0 ≤ t)
             | none => false)) &&
          ((match item.totalChf with
            | some t => decide (t ≤ cfg.filters.maxTotalHardChf.getD 1450)
            | none => false) || isPearl item cfg) &&
          (publicationEligibility item cfg now).eligible &&
          locationEligibility.1 && (nonSpeculativeEligibility item cfg).1) :=
  rfl

/-- Claim C7 (corrected): rooms 2.4 and 2.6 both floor to 2, but surface 61
rounds to 60 while surface 64 rounds to 65 (not 60 as the claim says), so
the two records get different composite keys and do not merge. -/
theorem dedupKey_c7_counterexample :
    buildCrossSourceDedupKey recC7a =
      some "rue de la gare 12|vevey|r:2|s:60|p:1500" ∧
    buildCrossSourceDedupKey recC7b =
      some "rue de la gare 12|vevey|r:2|s:65|p:1500" ∧
    buildCrossSourceDedupKey recC7a ≠ buildCrossSourceDedupKey recC7b ∧
    (dedupeCrossSourceListings [recC7a, recC7b] []).length = 2 := by
  decide

/-- Claim C7 (amended): two records that differ only in rooms 2.4 vs 2.6
(both floor to 2) and surface 61 vs 62 (both round to 60) produce the same
composite key and merge into one record. -/
theorem dedupKey_c7_amended :
    buildCrossSourceDedupKey recC7a = buildCrossSourceDedupKey recC7c ∧
    (buildCrossSourceDedupKey recC7a).isSome = true ∧
    (dedupeCrossSourceListings [recC7a, recC7c] []).length = 1 := by
  decide

/-- Claim C9 (corrected): the code decides publication eligibility from
`publishedAt` alone; a listing with unknown `publishedAt` is eligible even
though its `firstSeenAt` is 120 days old, where the claimed
firstSeenAt-fallback rule would reject it against the default 30-day cap. -/
theorem publication_c9_counterexample :
    (publicationEligibility itemC9 cfgDflt nowC9).eligible = true ∧
    publicationEligibilityClaimed itemC9 cfgDflt nowC9 = false ∧
    publishedAgeDays itemC9.firstSeenAt nowC9 = some 120 ∧
    resolveMaxPublishedAgeDays cfgDflt = 30 := by
  decide

/-- Claim C9 (amended): publication eligibility is decided from the age
since `publishedAt` alone — there is no `firstSeenAt` fallback — compared
against the configured maximum, and an unknown age is eligible by default
(fail-open). -/
theorem publication_c9_amended (item : Item) (cfg : Config) (now : Int) :
    (publicationEligibility item cfg now).eligible =
      (match publishedAgeDays item.publishedAt now with
       | none => true
       | some a => decide ((a : ℚ) ≤ resolveMaxPublishedAgeDays cfg)) ∧
    (publicationEligibility item cfg now).ageDays =
      publishedAgeDays item.publishedAt now := by
  cases h : publishedAgeDays item.publishedAt now <;>
    simp [publicationEligibility, h]

/-- Claim C8 (confirmed): a listing priced exactly at `maxTotalHardChf` is
never a pearl (the predicate needs a price strictly above the hard budget),
while a listing priced exactly at `maxPearlTotalChf` is a pearl provided
pearls are enabled, the cap exceeds the hard budget, the rooms/surface
minimums hold and the configured keyword-hit minimum is met. -/
theorem isPearl_c8_boundaries (a b : Item) (cfg : Config) :
    (a.totalChf = some (cfg.filters.maxTotalHardChf.getD 1450) →
      isPearl a cfg = false) ∧
    (cfg.filters.pearl.enabled ≠ some false →
     b.totalChf = some (cfg.filters.maxPearlTotalChf.getD 1550) →
     cfg.filters.maxTotalHardChf.getD 1450 <
       cfg.filters.maxPearlTotalChf.getD 1550 →
     cfg.filters.pearl.minRooms.getD 2 ≤ b.rooms.getD 0 →
     cfg.filters.pearl.minSurfaceM2.getD 50 ≤ b.surfaceM2.getD 0 →
     cfg.filters.pearl.minHits.getD 1 ≤
       ((if cfg.filters.pearl.keywords ≠ [] then cfg.filters.pearl.keywords
         else defaultPearlKeywords).filter
         (fun s => jsIncludes
           (jsLower (b.title ++ " " ++ b.objectType ++ " " ++ b.address))
           (jsLower s))).length →
     isPearl b cfg = true) := by
  constructor
  · intro h
    by_cases he : cfg.filters.pearl.enabled = some false
    · simp [isPearl, he]
    · simp [isPearl, he, h]
  · intro he hb hcap hrooms hsurf hhits
    have h1 : ¬(cfg.filters.maxPearlTotalChf.getD 1550 ≤
        cfg.filters.maxTotalHardChf.getD 1450 ∨
        cfg.filters.maxPearlTotalChf.getD 1550 <
        cfg.filters.maxPearlTotalChf.getD 1550) := by
      push_neg
      exact ⟨hcap, le_refl _⟩
    have h2 : ¬(b.rooms.getD 0 < cfg.filters.pearl.minRooms.getD 2 ∨
        b.surfaceM2.getD 0 < cfg.filters.pearl.minSurfaceM2.getD 50) := by
      push_neg
      exact ⟨hrooms, hsurf⟩
    simp only [isPearl, if_neg he, hb, if_neg h1, if_neg h2]
    exact decide_eq_true hhits

/-- Witness for C8: under the default configuration, the listing priced at
the hard budget (1450) is not a pearl and the one priced at the pearl cap
(1550), with rooms 3, surface 60 and a keyword hit, is. -/
theorem isPearl_c8_boundaries_witness :
    isPearl aC8 cfgDflt = false ∧ isPearl bC8 cfgDflt = true := by
  constructor
  · exact (isPearl_c8_boundaries aC8 bC8 cfgDflt).1 (by decide)
  · exact (isPearl_c8_boundaries aC8 bC8 cfgDflt).2 (by decide) (by decide)
      (by decide) (by decide) (by decide) (by decide)

theorem mem_jsSetList_aux (l acc : List String) (s : String) :
    s ∈ l.foldl (fun acc s => if s ∈ acc then acc else acc ++ [s]) acc ↔
      s ∈ acc ∨ s ∈ l := by
  induction l generalizing acc with
  | nil => simp
  | cons a t ih =>
    simp only [List.foldl_cons]
    by_cases h : a ∈ acc
    · rw [if_pos h, ih]
      constructor
      · rintro (hs | hs)
        · exact Or.inl hs
        · exact Or.inr (List.mem_cons_of_mem _ hs)
      · rintro (hs | hs)
        · exact Or.inl hs
        · rcases List.mem_cons.mp hs with rfl | hs
          · exact Or.inl h
          · exact Or.inr hs
    · rw [if_neg h, ih]
      constructor
      · rintro (hs | hs)
        · rcases List.mem_append.mp hs with hs | hs
          · exact Or.inl hs
          · exact Or.inr (List.mem_cons.mpr (Or.inl (List.mem_singleton.mp hs)))
        · exact Or.inr (List.mem_cons_of_mem _ hs)
      · rintro (hs | hs)
        · exact Or.inl (List.mem_append.mpr (Or.inl hs))
        · rcases List.mem_cons.mp hs with rfl | hs
          · exact Or.inl (List.mem_append.mpr (Or.inr (List.mem_singleton.mpr rfl)))
          · exact Or.inr hs

theorem mem_jsSetList (l : List String) (s : String) :
    s ∈ jsSetList l ↔ s ∈ l := by
  unfold jsSetList
  rw [mem_jsSetList_aux]
  simp

theorem listingQualityRank_set_dup (x : Item) (d : List String)
    (tids : List String) :
    listingQualityRank { x with duplicateSources := d } tids =
      listingQualityRank x tids := rfl

/-- Claim C4 (confirmed): when two records share a composite dedup key and
one has a strictly higher quality rank, processing them in either order
yields a single merged record carrying the higher-rank record's fields,
with `duplicateSources` equal — as a set — to the two source names. -/
theorem dedupe_c4_order_independent (A B : Item) (tids : List String) (k : String)
    (hA : buildCrossSourceDedupKey A = some k)
    (hB : buildCrossSourceDedupKey B = some k)
    (hr : listingQualityRank A tids < listingQualityRank B tids) :
    ∃ d₁ d₂,
      dedupeCrossSourceListings [A, B] tids =
        [{ B with duplicateSources := d₁ }] ∧
      dedupeCrossSourceListings [B, A] tids =
        [{ B with duplicateSources := d₂ }] ∧
      (∀ s, s ∈ d₁ ↔ s ∈ d₂) ∧
      (∀ s, s ∈ d₁ ↔ (s = A.source ∨ s = B.source)) := by
  have h₁ : ∀ s, s ∈ jsSetList ([A.source] ++ [B.source, B.source]) ↔
      (s = A.source ∨ s = B.source) := by
    intro s
    rw [mem_jsSetList]
    constructor
    · intro hs
      rcases List.mem_append.mp hs with hs | hs
      · exact Or.inl (List.mem_singleton.mp hs)
      · rcases List.mem_cons.mp hs with rfl | hs
        · exact Or.inr rfl
        · exact Or.inr (List.mem_singleton.mp hs)
    · rintro (rfl | rfl)
      · exact List.mem_append.mpr (Or.inl (List.mem_singleton.mpr rfl))
      · exact List.mem_append.mpr (Or.inr (List.mem_cons_self _ _))
  have h₂ : ∀ s, s ∈ jsSetList ([B.source] ++ [A.source, B.source]) ↔
      (s = A.source ∨ s = B.source) := by
    intro s
    rw [mem_jsSetList]
    constructor
    · intro hs
      rcases List.mem_append.mp hs with hs | hs
      · exact Or.inr (List.mem_singleton.mp hs)
      · rcases List.mem_cons.mp hs with rfl | hs
        · exact Or.inl rfl
        · exact Or.inr (List.mem_singleton.mp hs)
    · rintro (rfl | rfl)
      · exact List.mem_append.mpr (Or.inr (List.mem_cons_self _ _))
      · exact List.mem_append.mpr (Or.inl (List.mem_singleton.mpr rfl))
  refine ⟨jsSetList ([A.source] ++ [B.source, B.source]),
         jsSetList ([B.source] ++ [A.source, B.source]), ?_, ?_,
         fun s => (h₁ s).trans (h₂ s).symm, h₁⟩
  · unfold dedupeCrossSourceListings
    simp only [List.foldl_cons, List.foldl_nil, dedupeStep, hA, hB,
      lookupKey, List.find?, updateKey, List.map, listingQualityRank_set_dup]
    simp [if_pos hr]
  · unfold dedupeCrossSourceListings
    simp only [List.foldl_cons, List.foldl_nil, dedupeStep, hA, hB,
      lookupKey, List.find?, updateKey, List.map, listingQualityRank_set_dup]
    simp [if_neg (not_lt.mpr (le_of_lt hr))]

/-- Witness for C4: the flatfox record (rank 24) and the immobilier.ch
record (rank 34) share the key `avenue reller 7|vevey|r:3|s:70|p:1400`;
both processing orders keep the immobilier.ch fields and the same source
set. -/
theorem dedupe_c4_order_independent_witness :
    ∃ d₁ d₂,
      dedupeCrossSourceListings [wC4a, wC4b] [] =
        [{ wC4b with duplicateSources := d₁ }] ∧
      dedupeCrossSourceListings [wC4b, wC4a] [] =
        [{ wC4b with duplicateSources := d₂ }] ∧
      (∀ s, s ∈ d₁ ↔ s ∈ d₂) ∧
      (∀ s, s ∈ d₁ ↔ (s = wC4a.source ∨ s = wC4b.source)) :=
  dedupe_c4_order_independent wC4a wC4b []
    "avenue reller 7|vevey|r:3|s:70|p:1400" (by decide) (by decide) (by decide)

theorem StaticEq.refl (a : Item) : StaticEq a a :=
  ⟨rfl, rfl, rfl, rfl, rfl, rfl, rfl, rfl, rfl, rfl, rfl, rfl, rfl, rfl,
   rfl, rfl, rfl, rfl⟩

theorem StaticEq.trans' {a b c : Item} (h₁ : StaticEq a b)
    (h₂ : StaticEq b c) : StaticEq a c :=
  ⟨h₁.id.trans h₂.id, h₁.sourceId.trans h₂.sourceId, h₁.source.trans h₂.source,
   h₁.url.trans h₂.url, h₁.title.trans h₂.title,
   h₁.objectType.trans h₂.objectType, h₁.address.trans h₂.address,
   h₁.area.trans h₂.area, h₁.rooms.trans h₂.rooms,
   h₁.surfaceM2.trans h₂.surfaceM2, h₁.totalChf.trans h₂.totalChf,
   h₁.priceRaw.trans h₂.priceRaw, h₁.listingStage.trans h₂.listingStage,
   h₁.publishedAt.trans h₂.publishedAt, h₁.notes.trans h₂.notes,
   h₁.providerName.trans h₂.providerName, h₁.agencyName.trans h₂.agencyName,
   h₁.agencyUrl.trans h₂.agencyUrl⟩

theorem refreshedAbsent_staticEq (cfg : Config) (now : Int) (old : Item) :
    StaticEq (refreshedAbsent cfg now old) old :=
  ⟨rfl, rfl, rfl, rfl, rfl, rfl, rfl, rfl, rfl, rfl, rfl, rfl, rfl, rfl,
   rfl, rfl, rfl, rfl⟩

theorem absentRemovedEntry_staticEq (now : Int) (old : Item) (r : String) :
    StaticEq (absentRemovedEntry now old r) old :=
  ⟨rfl, rfl, rfl, rfl, rfl, rfl, rfl, rfl, rfl, rfl, rfl, rfl, rfl, rfl,
   rfl, rfl, rfl, rfl⟩

theorem absentRegularEntry_staticEq (cfg : Config) (env : Env) (now : Int)
    (old refreshed : Item) :
    StaticEq (absentRegularEntry cfg env now old refreshed) refreshed :=
  ⟨rfl, rfl, rfl, rfl, rfl, rfl, rfl, rfl, rfl, rfl, rfl, rfl, rfl, rfl,
   rfl, rfl, rfl, rfl⟩

theorem absentTail_staticEq (cfg : Config) (env : Env)
    (keys : List String) (now : Int) (old refreshed : Item)
    (h : StaticEq refreshed old) :
    StaticEq (absentTail cfg env keys now old refreshed) old := by
  unfold absentTail
  split
  · exact absentRemovedEntry_staticEq now old _
  · exact (absentRegularEntry_staticEq cfg env now old refreshed).trans' h

theorem processAbsentOld_staticEq (cfg : Config) (env : Env)
    (keys tset : List String) (now : Int) (old : Item) :
    StaticEq (processAbsentOld cfg env keys tset now old) old := by
  unfold processAbsentOld
  split
  · exact ⟨rfl, rfl, rfl, rfl, rfl, rfl, rfl, rfl, rfl, rfl, rfl, rfl, rfl,
      rfl, rfl, rfl, rfl, rfl⟩
  · split
    · exact absentRemovedEntry_staticEq now old _
    · exact absentTail_staticEq cfg env keys now old _
        (refreshedAbsent_staticEq cfg now old)

theorem isExcludedType_congr {a b : Item} (cfg : Config) (h : StaticEq a b) :
    isExcludedType a cfg = isExcludedType b cfg := by
  unfold isExcludedType
  rw [h.objectType, h.title]

theorem isSizeEligible_congr {a b : Item} (cfg : Config) (h : StaticEq a b) :
    isSizeEligible a cfg = isSizeEligible b cfg := by
  unfold isSizeEligible
  rw [h.rooms, h.surfaceM2, h.objectType, h.title]

theorem isPearl_congr {a b : Item} (cfg : Config) (h : StaticEq a b) :
    isPearl a cfg = isPearl b cfg := by
  unfold isPearl
  rw [h.totalChf, h.rooms, h.surfaceM2, h.title, h.objectType, h.address]

theorem publicationEligibility_congr {a b : Item} (cfg : Config) (now : Int)
    (h : StaticEq a b) :
    publicationEligibility a cfg now = publicationEligibility b cfg now := by
  unfold publicationEligibility
  rw [h.publishedAt]

theorem nonSpeculativeEligibility_congr {a b : Item} (cfg : Config)
    (h : StaticEq a b) :
    nonSpeculativeEligibility a cfg = nonSpeculativeEligibility b cfg := by
  unfold nonSpeculativeEligibility
  rw [h.providerName, h.agencyName, h.agencyUrl, h.title, h.notes]

theorem computeDerivedFields_display_congr {a b : Item} (cfg : Config)
    (now : Int) (h : StaticEq a b) :
    (computeDerivedFields cfg now a).display =
      (computeDerivedFields cfg now b).display := by
  unfold computeDerivedFields
  rw [h.listingStage, h.totalChf, isExcludedType_congr cfg h,
    isSizeEligible_congr cfg h, isPearl_congr cfg h,
    publicationEligibility_congr cfg now h,
    nonSpeculativeEligibility_congr cfg h]

theorem isLikelyResidentialListing_congr {a b : Item} (h : StaticEq a b) :
    isLikelyResidentialListing a = isLikelyResidentialListing b := by
  unfold isLikelyResidentialListing
  rw [h.objectType, h.title, h.url, h.rooms]

theorem isStoredAnibisSaleListing_congr {a b : Item} (h : StaticEq a b) :
    isStoredAnibisSaleListing a = isStoredAnibisSaleListing b := by
  unfold isStoredAnibisSaleListing
  rw [h.source, h.title, h.url, h.notes, h.priceRaw]

theorem buildCrossSourceDedupKey_congr {a b : Item} (h : StaticEq a b) :
    buildCrossSourceDedupKey a = buildCrossSourceDedupKey b := by
  unfold buildCrossSourceDedupKey buildAddressDedupKey
  rw [h.address, h.area, h.rooms, h.surfaceM2, h.totalChf]

theorem duplicateOfActive_eq_false (keys : List String)
    (old refreshed : Item)
    (h5 : ∀ x, buildCrossSourceDedupKey old = some x → x ∉ keys) :
    duplicateOfActive keys old refreshed = false := by
  unfold duplicateOfActive
  cases hk : buildCrossSourceDedupKey old with
  | none => simp
  | some k => simp [h5 k hk]

theorem anibisSourceDisabled_eq_false (cfg : Config) (old : Item)
    (h4 : ¬(old.source = "anibis.ch" ∧ cfg.anibisSource = some false)) :
    anibisSourceDisabled cfg old = false := by
  unfold anibisSourceDisabled
  by_cases ha : old.source = "anibis.ch"
  · by_cases hb : cfg.anibisSource = some false
    · exact absurd ⟨ha, hb⟩ h4
    · simp [hb]
  · simp [ha]

theorem absentFastCond_eq_false (cfg : Config) (keys : List String)
    (old refreshed : Item)
    (h3 : isStoredAnibisSaleListing old = false)
    (h4 : ¬(old.source = "anibis.ch" ∧ cfg.anibisSource = some false))
    (h5 : ∀ x, buildCrossSourceDedupKey old = some x → x ∉ keys) :
    absentFastCond cfg keys old refreshed = false := by
  unfold absentFastCond
  rw [duplicateOfActive_eq_false keys old refreshed h5, h3,
    anibisSourceDisabled_eq_false cfg old h4]
  rfl

theorem processAbsentOld_regular (cfg : Config) (env : Env)
    (keys tset : List String) (now : Int) (old : Item)
    (h1 : isTargetAreaCity old.area tset = true)
    (h2 : ¬((jsLower old.source = "naef.ch" ∨
        jsLower old.source = "bernard-nicod.ch") ∧
        ¬ isLikelyResidentialListing old))
    (hf : absentFastCond cfg keys old (refreshedAbsent cfg now old) = false) :
    processAbsentOld cfg env keys tset now old =
      absentRegularEntry cfg env now old (refreshedAbsent cfg now old) := by
  unfold processAbsentOld
  rw [if_neg (by simp [h1]), if_neg h2]
  unfold absentTail
  simp [hf]

theorem refreshedAbsent_display (cfg : Config) (now : Int) (old : Item) :
    (refreshedAbsent cfg now old).display =
      (computeDerivedFields cfg now old).display := rfl

theorem absentRegularEntry_outcome (cfg : Config) (env : Env) (now : Int)
    (old refreshed : Item) :
    (absentRegularEntry cfg env now old refreshed).missingCount =
      old.missingCount + 1 ∧
    (absentRegularEntry cfg env now old refreshed).isRemoved =
      (refreshed.display &&
        decide (missingScansBeforeRemoved cfg ≤ old.missingCount + 1)) ∧
    (absentRegularEntry cfg env now old refreshed).active =
      !(refreshed.display &&
        decide (missingScansBeforeRemoved cfg ≤ old.missingCount + 1)) := by
  have hsr : (if refreshed.display = false then false
      else decide (missingScansBeforeRemoved cfg ≤ old.missingCount + 1)) =
      (refreshed.display &&
        decide (missingScansBeforeRemoved cfg ≤ old.missingCount + 1)) := by
    cases refreshed.display <;> simp
  refine ⟨rfl, ?_, ?_⟩
  · show (if refreshed.display = false then false
      else decide (missingScansBeforeRemoved cfg ≤ old.missingCount + 1)) = _
    exact hsr
  · show (!(if refreshed.display = false then false
      else decide (missingScansBeforeRemoved cfg ≤ old.missingCount + 1))) = _
    rw [hsr]

theorem applyScore_id (cfg : Config) (it : Item) :
    (applyScore cfg it).id = it.id := rfl

theorem mergePresent_id (existing itE : Item) (prevIds : List String)
    (now : Int) : (mergePresent existing itE prevIds now).id = itE.id := rfl

theorem freshEntry_id (itE : Item) (now : Int) :
    (freshEntry itE now).id = itE.id := rfl

theorem pearlPriorityOverride_id (it : Item) :
    (pearlPriorityOverride it).id = it.id := by
  unfold pearlPriorityOverride
  split <;> rfl

theorem entryDateEnrich_id (env : Env) (it : Item) :
    (entryDateEnrich env it).id = it.id := by
  unfold entryDateEnrich
  split <;> rfl

theorem enrichGate_id (env : Env) (it : Item) :
    (enrichGate env it).id = it.id := by
  unfold enrichGate
  split
  · show (enrichDisplayTrue env it).id = it.id
    show (entryDateEnrich env it).id = it.id
    exact entryDateEnrich_id env it
  · rfl

theorem enrichPresent_id (cfg : Config) (env : Env) (now : Int)
    (it0 : Item) : (enrichPresent cfg env now it0).id = it0.id := by
  unfold enrichPresent setFilterReason
  show (enrichGate env _).id = it0.id
  rw [enrichGate_id, pearlPriorityOverride_id]
  rfl

theorem presentOne_id (cfg : Config) (env : Env) (prevIds : List String)
    (tracker : List Item) (now : Int) (it0 : Item) :
    (presentOne cfg env prevIds tracker now it0).id = it0.id := by
  unfold presentOne
  cases h : jsMapGet tracker (enrichPresent cfg env now it0).id with
  | some existing =>
    simp only [h]
    rw [mergePresent_id]
    exact enrichPresent_id cfg env now it0
  | none =>
    simp only [h]
    rw [freshEntry_id]
    exact enrichPresent_id cfg env now it0

theorem mergeScan_never_deletes (cfg : Config) (env : Env)
    (dedup : List Item) (prevIds : List String) (tracker : List Item)
    (now : Int) (old : Item) (hmem : old ∈ tracker) :
    ∃ e ∈ mergeScan cfg env dedup prevIds tracker now, e.id = old.id := by
  by_cases hd : old.id ∈ dedup.map Item.id
  · obtain ⟨it, hit, hid⟩ := List.mem_map.mp hd
    refine ⟨applyScore cfg (presentOne cfg env prevIds tracker now it), ?_, ?_⟩
    · unfold mergeScan
      exact List.mem_map.mpr ⟨presentOne cfg env prevIds tracker now it,
        List.mem_append.mpr (Or.inl (List.mem_map.mpr ⟨it, hit, rfl⟩)), rfl⟩
    · rw [applyScore_id, presentOne_id, hid]
  · refine ⟨applyScore cfg (processAbsentOld cfg env
      (dedup.filterMap buildCrossSourceDedupKey)
      (buildTargetAreaSet cfg.areas) now old), ?_, ?_⟩
    · unfold mergeScan
      refine List.mem_map.mpr ⟨processAbsentOld cfg env
        (dedup.filterMap buildCrossSourceDedupKey)
        (buildTargetAreaSet cfg.areas) now old,
        List.mem_append.mpr (Or.inr (List.mem_map.mpr ⟨old, ?_, rfl⟩)), rfl⟩
      exact List.mem_filter.mpr ⟨hmem, by simpa using hd⟩
    · rw [applyScore_id]
      exact (processAbsentOld_staticEq cfg env _ _ now old).id

/-- Claim C2 (corrected): an absent tracked listing is never deleted (an
entry with its id always survives the merge pass) and its `missingCount`
increments by exactly 1 per absent scan; in the absence of the fast-exit
removal reasons (cross-source duplicate of an active key, stored Anibis
sale ad, disabled Anibis source, out-of-scope/non-residential checks),
`isRemoved` becomes true exactly when the listing is display-eligible and
the incremented count reaches `missingScansBeforeRemoved`; for
threshold 2 and a display-eligible listing: first absent scan
`missingCount = 1, isRemoved = false`, second absent scan
`missingCount = 2, isRemoved = true`. -/
theorem absent_c2_amended (cfg : Config) (env : Env)
    (keys keys₂ tset : List String) (now now₂ : Int) (old : Item)
    (h1 : isTargetAreaCity old.area tset = true)
    (h2 : ¬((jsLower old.source = "naef.ch" ∨
        jsLower old.source = "bernard-nicod.ch") ∧
        ¬ isLikelyResidentialListing old))
    (h3 : isStoredAnibisSaleListing old = false)
    (h4 : ¬(old.source = "anibis.ch" ∧ cfg.anibisSource = some false))
    (h5 : ∀ x, buildCrossSourceDedupKey old = some x → x ∉ keys)
    (h5b : ∀ x, buildCrossSourceDedupKey old = some x → x ∉ keys₂) :
    ((processAbsentOld cfg env keys tset now old).missingCount =
        old.missingCount + 1 ∧
      (processAbsentOld cfg env keys tset now old).isRemoved =
        ((computeDerivedFields cfg now old).display &&
          decide (missingScansBeforeRemoved cfg ≤ old.missingCount + 1)) ∧
      (processAbsentOld cfg env keys tset now old).active =
        !((computeDerivedFields cfg now old).display &&
          decide (missingScansBeforeRemoved cfg ≤ old.missingCount + 1))) ∧
    (∀ dedup prevIds tracker, old ∈ tracker →
      ∃ e ∈ mergeScan cfg env dedup prevIds tracker now, e.id = old.id) ∧
    (missingScansBeforeRemoved cfg = 2 → old.missingCount = 0 →
      (computeDerivedFields cfg now old).display = true →
      (computeDerivedFields cfg now₂ old).display = true →
      (processAbsentOld cfg env keys tset now old).missingCount = 1 ∧
      (processAbsentOld cfg env keys tset now old).isRemoved = false ∧
      (processAbsentOld cfg env keys₂ tset now₂
        (processAbsentOld cfg env keys tset now old)).missingCount = 2 ∧
      (processAbsentOld cfg env keys₂ tset now₂
        (processAbsentOld cfg env keys tset now old)).isRemoved = true) := by
  have hreg := processAbsentOld_regular cfg env keys tset now old h1 h2
    (absentFastCond_eq_false cfg keys old _ h3 h4 h5)
  have hout := absentRegularEntry_outcome cfg env now old
    (refreshedAbsent cfg now old)
  have hstep : (processAbsentOld cfg env keys tset now old).missingCount =
        old.missingCount + 1 ∧
      (processAbsentOld cfg env keys tset now old).isRemoved =
        ((computeDerivedFields cfg now old).display &&
          decide (missingScansBeforeRemoved cfg ≤ old.missingCount + 1)) ∧
      (processAbsentOld cfg env keys tset now old).active =
        !((computeDerivedFields cfg now old).display &&
          decide (missingScansBeforeRemoved cfg ≤ old.missingCount + 1)) := by
    rw [hreg]
    refine ⟨hout.1, ?_, ?_⟩
    · rw [hout.2.1, refreshedAbsent_display]
    · rw [hout.2.2, refreshedAbsent_display]
  refine ⟨hstep, ?_, ?_⟩
  · intro dedup prevIds tracker hmem
    exact mergeScan_never_deletes cfg env dedup prevIds tracker now old hmem
  · intro hthr hmc hd1 hd2
    set r := processAbsentOld cfg env keys tset now old with hr
    have hse : StaticEq r old := processAbsentOld_staticEq cfg env keys tset now old
    have h1' : isTargetAreaCity r.area tset = true := by
      rw [hse.area]; exact h1
    have h2' : ¬((jsLower r.source = "naef.ch" ∨
        jsLower r.source = "bernard-nicod.ch") ∧
        ¬ isLikelyResidentialListing r) := by
      rw [hse.source, isLikelyResidentialListing_congr hse]; exact h2
    have h3' : isStoredAnibisSaleListing r = false :=
      (isStoredAnibisSaleListing_congr hse).trans h3
    have h4' : ¬(r.source = "anibis.ch" ∧ cfg.anibisSource = some false) := by
      rw [hse.source]; exact h4
    have h5b' : ∀ x, buildCrossSourceDedupKey r = some x → x ∉ keys₂ :=
      fun x hx => h5b x ((buildCrossSourceDedupKey_congr hse).symm.trans hx)
    have hreg2 := processAbsentOld_regular cfg env keys₂ tset now₂ r h1' h2'
      (absentFastCond_eq_false cfg keys₂ r _ h3' h4' h5b')
    have hout2 := absentRegularEntry_outcome cfg env now₂ r
      (refreshedAbsent cfg now₂ r)
    have hrm : r.missingCount = 1 := by
      rw [hstep.1, hmc]
    have hd2' : (computeDerivedFields cfg now₂ r).display = true :=
      (computeDerivedFields_display_congr cfg now₂ hse).trans hd2
    refine ⟨by rw [hstep.1, hmc], ?_, ?_, ?_⟩
    · rw [hstep.2.1, hthr, hmc, hd1]
      simp
    · rw [hreg2, hout2.1, hrm]
    · rw [hreg2, hout2.2.1, refreshedAbsent_display, hd2', hthr, hrm]
      simp

/-- Counterexample for C2 as stated: a stored Anibis listing whose source
is disabled is marked `isRemoved = true` on its first absent scan
(`missingCount = 1`), strictly before the threshold of 2. -/
theorem absent_c2_counterexample :
    ((jsMapGet (mergeScan cfgC2 envDflt [] [] [anbC2] 1000) "a1").map
      (fun e => (e.missingCount, e.isRemoved, e.filterReason)) =
      some (1, true, "Source Anibis désactivée")) ∧
    anbC2.missingCount + 1 < missingScansBeforeRemoved cfgC2 := by
  decide

/-- Witness for C2 (amended): the display-eligible listing `absC2` gets
`missingCount 1 / not removed` on the first absent scan and
`missingCount 2 / removed` on the second. -/
theorem absent_c2_amended_witness :
    (processAbsentOld cfgDflt envDflt [] [] 1000 absC2).missingCount = 1 ∧
    (processAbsentOld cfgDflt envDflt [] [] 1000 absC2).isRemoved = false ∧
    (processAbsentOld cfgDflt envDflt [] [] 2000
      (processAbsentOld cfgDflt envDflt [] [] 1000 absC2)).missingCount = 2 ∧
    (processAbsentOld cfgDflt envDflt [] [] 2000
      (processAbsentOld cfgDflt envDflt [] [] 1000 absC2)).isRemoved = true :=
  (absent_c2_amended cfgDflt envDflt [] [] [] 1000 2000 absC2 (by decide)
    (by decide) (by decide) (by decide)
    (fun x _ => List.not_mem_nil x) (fun x _ => List.not_mem_nil x)).2.2
    (by decide) (by decide) (by decide) (by decide)

theorem processAbsentOld_display_false_step (cfg : Config) (env : Env)
    (keys tset : List String) (now : Int) (old : Item)
    (h1 : isTargetAreaCity old.area tset = true)
    (h2 : ¬((jsLower old.source = "naef.ch" ∨
        jsLower old.source = "bernard-nicod.ch") ∧
        ¬ isLikelyResidentialListing old))
    (h3 : isStoredAnibisSaleListing old = false)
    (h4 : ¬(old.source = "anibis.ch" ∧ cfg.anibisSource = some false))
    (hd : (computeDerivedFields cfg now old).display = false) :
    (processAbsentOld cfg env keys tset now old).missingCount =
      old.missingCount + 1 ∧
    (processAbsentOld cfg env keys tset now old).isRemoved = false := by
  have hrd : (refreshedAbsent cfg now old).display = false :=
    (refreshedAbsent_display cfg now old).trans hd
  have hdup : duplicateOfActive keys old (refreshedAbsent cfg now old) =
      false := by
    unfold duplicateOfActive
    rw [hrd]
    simp
  have hf : absentFastCond cfg keys old (refreshedAbsent cfg now old) =
      false := by
    unfold absentFastCond
    rw [hdup, h3, anibisSourceDisabled_eq_false cfg old h4]
    rfl
  have hreg := processAbsentOld_regular cfg env keys tset now old h1 h2 hf
  have hout := absentRegularEntry_outcome cfg env now old
    (refreshedAbsent cfg now old)
  constructor
  · rw [hreg]
    exact hout.1
  · rw [hreg, hout.2.1, hrd]
    simp

/-- Claim C10 (confirmed): an absent tracked listing that stays in the
target areas, is hit by no fast-exit removal reason, and is
display-ineligible on every scan keeps incrementing `missingCount` without
bound (`+1` per absent scan, arbitrarily far past the threshold) while
`isRemoved` stays false; and a single absent scan can only set
`isRemoved = true` via the missing-count path when the recomputed display
eligibility is true. -/
theorem absent_c10_display_false_never_removed (cfg : Config) (env : Env)
    (keys tset : List String) (nows : List Int) (old : Item)
    (h1 : isTargetAreaCity old.area tset = true)
    (h2 : ¬((jsLower old.source = "naef.ch" ∨
        jsLower old.source = "bernard-nicod.ch") ∧
        ¬ isLikelyResidentialListing old))
    (h3 : isStoredAnibisSaleListing old = false)
    (h4 : ¬(old.source = "anibis.ch" ∧ cfg.anibisSource = some false))
    (hdisp : ∀ n ∈ nows, (computeDerivedFields cfg n old).display = false) :
    (absentIterate cfg env keys tset nows old).missingCount =
      old.missingCount + nows.length ∧
    (nows ≠ [] → (absentIterate cfg env keys tset nows old).isRemoved = false) ∧
    (∀ keys' now',
      (processAbsentOld cfg env keys' tset now' old).isRemoved = true →
      (computeDerivedFields cfg now' old).display = true) := by
  have main : ∀ (ns : List Int) (o : Item),
      isTargetAreaCity o.area tset = true →
      ¬((jsLower o.source = "naef.ch" ∨
        jsLower o.source = "bernard-nicod.ch") ∧
        ¬ isLikelyResidentialListing o) →
      isStoredAnibisSaleListing o = false →
      ¬(o.source = "anibis.ch" ∧ cfg.anibisSource = some false) →
      (∀ n ∈ ns, (computeDerivedFields cfg n o).display = false) →
      (absentIterate cfg env keys tset ns o).missingCount =
        o.missingCount + ns.length ∧
      (ns ≠ [] → (absentIterate cfg env keys tset ns o).isRemoved = false) := by
    intro ns
    induction ns with
    | nil =>
      intro o _ _ _ _ _
      exact ⟨by simp [absentIterate], fun h => absurd rfl h⟩
    | cons n rest ih =>
      intro o g1 g2 g3 g4 gdisp
      have hd : (computeDerivedFields cfg n o).display = false :=
        gdisp n (List.mem_cons_self _ _)
      have hstep := processAbsentOld_display_false_step cfg env keys tset n o
        g1 g2 g3 g4 hd
      have hse : StaticEq (processAbsentOld cfg env keys tset n o) o :=
        processAbsentOld_staticEq cfg env keys tset n o
      have g1' : isTargetAreaCity
          (processAbsentOld cfg env keys tset n o).area tset = true := by
        rw [hse.area]; exact g1
      have g2' : ¬((jsLower (processAbsentOld cfg env keys tset n o).source =
          "naef.ch" ∨
          jsLower (processAbsentOld cfg env keys tset n o).source =
          "bernard-nicod.ch") ∧
          ¬ isLikelyResidentialListing
            (processAbsentOld cfg env keys tset n o)) := by
        rw [hse.source, isLikelyResidentialListing_congr hse]; exact g2
      have g3' : isStoredAnibisSaleListing
          (processAbsentOld cfg env keys tset n o) = false :=
        (isStoredAnibisSaleListing_congr hse).trans g3
      have g4' : ¬((processAbsentOld cfg env keys tset n o).source =
          "anibis.ch" ∧ cfg.anibisSource = some false) := by
        rw [hse.source]; exact g4
      have gdisp' : ∀ m ∈ rest, (computeDerivedFields cfg m
          (processAbsentOld cfg env keys tset n o)).display = false :=
        fun m hm => (computeDerivedFields_display_congr cfg m hse).trans
          (gdisp m (List.mem_cons_of_mem _ hm))
      have ihr := ih (processAbsentOld cfg env keys tset n o)
        g1' g2' g3' g4' gdisp'
      have hiter : absentIterate cfg env keys tset (n :: rest) o =
          absentIterate cfg env keys tset rest
            (processAbsentOld cfg env keys tset n o) := rfl
      constructor
      · rw [hiter, ihr.1, hstep.1]
        simp [List.length_cons]
        omega
      · intro _
        cases rest with
        | nil =>
          rw [hiter]
          exact hstep.2
        | cons m rest' =>
          rw [hiter]
          exact ihr.2 (by simp)
  refine ⟨(main nows old h1 h2 h3 h4 hdisp).1,
    (main nows old h1 h2 h3 h4 hdisp).2, ?_⟩
  intro keys' now' hrem
  by_cases hd : (computeDerivedFields cfg now' old).display = true
  · exact hd
  · have hdf : (computeDerivedFields cfg now' old).display = false :=
      Bool.eq_false_iff.mpr hd
    have hfalse := (processAbsentOld_display_false_step cfg env keys' tset
      now' old h1 h2 h3 h4 hdf).2
    rw [hrem] at hfalse
    exact absurd hfalse (by decide)

/-- Witness for C10: `dOffC10` (missing for 5 scans, far over budget, hence
display-ineligible) survives three more absent scans with
`missingCount = 8` and `isRemoved = false` — one past the default
threshold of 2 it never reaches. -/
theorem absent_c10_display_false_never_removed_witness :
    (absentIterate cfgDflt envDflt [] [] [1000, 2000, 3000]
      dOffC10).missingCount = 8 ∧
    (absentIterate cfgDflt envDflt [] [] [1000, 2000, 3000]
      dOffC10).isRemoved = false := by
  have h := absent_c10_display_false_never_removed cfgDflt envDflt [] []
    [1000, 2000, 3000] dOffC10 (by decide) (by decide) (by decide) (by decide)
    (by intro n hn; fin_cases hn <;> decide)
  refine ⟨?_, h.2.1 (by simp)⟩
  rw [h.1]
  decide

/-- Finding by id in the reversed image of an id-preserving map over an
id-nodup list locates the image of the sought element. -/
theorem find?_reverse_map_of_nodup (f : Item → Item)
    (hid : ∀ x, (f x).id = x.id) (l : List Item)
    (hnd : (l.map Item.id).Nodup) (it : Item) (hit : it ∈ l) :
    ((l.map f).reverse).find? (fun e => e.id = it.id) = some (f it) := by
  induction l with
  | nil => cases hit
  | cons a t ih =>
    simp only [List.map_cons, List.reverse_cons, List.find?_append]
    rcases List.mem_cons.mp hit with rfl | hmem
    · have hnone : ((t.map f).reverse).find?
          (fun e => e.id = it.id) = none := by
        rw [List.find?_eq_none]
        intro x hx
        obtain ⟨y, hy, rfl⟩ := List.mem_map.mp (List.mem_reverse.mp hx)
        have : y.id ∈ t.map Item.id := List.mem_map.mpr ⟨y, hy, rfl⟩
        have hne : it.id ∉ t.map Item.id := by
          have := (List.nodup_cons.mp hnd).1
          simpa using this
        simp only [hid y, decide_eq_true_eq]
        intro hcontra
        exact hne (hcontra ▸ this)
      rw [hnone]
      simp [hid it]
    · have hrec := ih (List.nodup_cons.mp hnd).2 hmem
      rw [hrec]
      rfl

/-- A batch item with a unique id is found in the merge-pass output as the
scored result of the present-listing branch. -/
theorem jsMapGet_mergeScan_present (cfg : Config) (env : Env)
    (dedup : List Item) (prevIds : List String) (tracker : List Item)
    (now : Int) (it : Item) (hit : it ∈ dedup)
    (hnd : (dedup.map Item.id).Nodup) :
    jsMapGet (mergeScan cfg env dedup prevIds tracker now) it.id =
      some (applyScore cfg (presentOne cfg env prevIds tracker now it)) := by
  unfold mergeScan jsMapGet
  rw [List.map_append, List.reverse_append, List.find?_append]
  have habsent : ((((tracker.filter (fun old => old.id ∉
      dedup.map (fun it => it.id))).map (processAbsentOld cfg env
      (dedup.filterMap buildCrossSourceDedupKey)
      (buildTargetAreaSet cfg.areas) now)).map (applyScore cfg)).reverse.find?
      (fun e => e.id = it.id)) = none := by
    rw [List.find?_eq_none]
    intro x hx
    obtain ⟨y, hy, rfl⟩ := List.mem_map.mp (List.mem_reverse.mp hx)
    obtain ⟨z, hz, rfl⟩ := List.mem_map.mp hy
    have hzid : z.id ∉ dedup.map (fun it => it.id) :=
      by simpa using (List.mem_filter.mp hz).2
    have hin : it.id ∈ dedup.map (fun it => it.id) :=
      List.mem_map.mpr ⟨it, hit, rfl⟩
    simp only [applyScore_id, decide_eq_true_eq]
    rw [(processAbsentOld_staticEq cfg env _ _ now z).id]
    intro hcontra
    exact hzid (hcontra ▸ hin)
  rw [habsent]
  rw [List.map_map]
  have := find?_reverse_map_of_nodup
    (applyScore cfg ∘ presentOne cfg env prevIds tracker now)
    (fun x => by
      show (applyScore cfg (presentOne cfg env prevIds tracker now x)).id = x.id
      rw [applyScore_id, presentOne_id]) dedup hnd it hit
  rw [this]
  rfl

theorem string_mk_toList (s : String) : String.mk s.toList = s := rfl

theorem normalizeStatus_of_canonical (s : String) (h : s ∈ STATUSES) :
    normalizeStatus s = s := by
  fin_cases h <;> decide

theorem mergeNotes_none_of_clean (n : String)
    (hfind : findEntree n.toList = none)
    (hclean : jsTrimList (collapseNewlines n.toList) = n.toList) :
    mergeNotesWithEntryDate n none = n := by
  unfold mergeNotesWithEntryDate
  rw [hfind]
  show String.mk (jsTrimList (collapseNewlines n.toList)) = n
  rw [hclean]
  exact string_mk_toList n

theorem mergeNotes_some_of_clean (n d : String)
    (hfind : findEntree n.toList = none) :
    mergeNotesWithEntryDate n (some d) =
      (if n ≠ "" then jsTrim (n ++ "
" ++ ("Entrée : " ++ d))
       else "Entrée : " ++ d) := by
  unfold mergeNotesWithEntryDate
  rw [hfind]

/-- Claim C3 (corrected): for a tracked listing re-confirmed in the batch,
the merge preserves `pinned` exactly and `firstSeenAt` once set, and resets
`missingCount = 0`, `active = true`, `isRemoved = false`; `status` is
preserved only up to `normalizeStatus` (unchanged when already canonical,
as hypothesised here), and `notes` only up to whitespace normalisation and
the synthesized `Entrée :` line (unchanged when already trimmed,
blank-line-free and `Entrée`-free, as hypothesised here). -/
theorem merge_c3_amended (cfg : Config) (env : Env) (dedup : List Item)
    (prevIds : List String) (tracker : List Item) (now : Int)
    (it ex : Item) (f : Int)
    (hit : it ∈ dedup) (hnd : (dedup.map Item.id).Nodup)
    (hex : jsMapGet tracker it.id = some ex)
    (hstatus : ex.status ∈ STATUSES)
    (hfsa : ex.firstSeenAt = some f)
    (hfind : findEntree ex.notes.toList = none)
    (hclean : jsTrimList (collapseNewlines ex.notes.toList)
      = ex.notes.toList) :
    ∃ e, jsMapGet (mergeScan cfg env dedup prevIds tracker now) it.id
        = some e ∧
      e.pinned = ex.pinned ∧ e.status = ex.status ∧
      e.firstSeenAt = some f ∧ e.missingCount = 0 ∧
      e.active = true ∧ e.isRemoved = false ∧
      (e.notes = ex.notes ∨ ∃ d, isStrictEntryDate (some d) = true ∧
        e.notes = (if ex.notes ≠ "" then
            jsTrim (ex.notes ++ "\n" ++ ("Entrée : " ++ d))
          else "Entrée : " ++ d)) := by
  have hkey : jsMapGet tracker (enrichPresent cfg env now it).id = some ex := by
    rw [enrichPresent_id]
    exact hex
  have hP : presentOne cfg env prevIds tracker now it =
      mergePresent ex (enrichPresent cfg env now it) prevIds now := by
    unfold presentOne
    simp only [hkey]
  refine ⟨applyScore cfg (presentOne cfg env prevIds tracker now it),
    jsMapGet_mergeScan_present cfg env dedup prevIds tracker now it hit hnd,
    ?_, ?_, ?_, ?_, ?_, ?_, ?_⟩
  · rw [hP]
    rfl
  · rw [hP]
    show normalizeStatus (if ex.status = "" then "À contacter" else ex.status)
      = ex.status
    have hne : ex.status ≠ "" := by
      intro h
      rw [h] at hstatus
      exact (by decide : ("" : String) ∉ STATUSES) hstatus
    rw [if_neg hne]
    exact normalizeStatus_of_canonical ex.status hstatus
  · rw [hP]
    show some (ex.firstSeenAt.getD now) = some f
    rw [hfsa]
    rfl
  · rw [hP]
    rfl
  · rw [hP]
    rfl
  · rw [hP]
    rfl
  · rw [hP]
    have hnotes : (applyScore cfg (mergePresent ex
        (enrichPresent cfg env now it) prevIds now)).notes =
        mergeNotesWithEntryDate ex.notes
          (if (enrichPresent cfg env now it).entryDateFetched then
            (if isStrictEntryDate (enrichPresent cfg env now it).entryDateText
              then (enrichPresent cfg env now it).entryDateText else none)
           else
            (if isStrictEntryDate ex.entryDateText then ex.entryDateText
             else none)) := rfl
    rw [hnotes]
    cases hd : (if (enrichPresent cfg env now it).entryDateFetched then
            (if isStrictEntryDate (enrichPresent cfg env now it).entryDateText
              then (enrichPresent cfg env now it).entryDateText else none)
           else
            (if isStrictEntryDate ex.entryDateText then ex.entryDateText
             else none) : Option String) with
    | none =>
      left
      exact mergeNotes_none_of_clean ex.notes hfind hclean
    | some d =>
      right
      have hstrict : isStrictEntryDate (some d) = true := by
        split_ifs at hd with h1 h2 h3
        all_goals first
          | exact hd ▸ h2
          | exact hd ▸ h3
      exact ⟨d, hstrict, mergeNotes_some_of_clean ex.notes d hfind⟩

/-- Counterexample for C3 as stated: a tracked listing with status
`Visite demandée` and notes containing a blank line is re-confirmed in the
batch; the merge rewrites its status to `Visite` and collapses the blank
line, so `status` and `notes` are not preserved unchanged (and the notes
change is not the synthesized `Entrée :` line, which is absent). -/
theorem merge_c3_counterexample :
    exC3.status = "Visite demandée" ∧ exC3.notes = "ligne A\n\nligne B" ∧
    findEntree exC3.notes.toList = none ∧
    (jsMapGet (mergeScan cfgDflt envDflt [batC3] [] [exC3] 0) "p1").map
        Item.status = some "Visite" ∧
    (jsMapGet (mergeScan cfgDflt envDflt [batC3] [] [exC3] 0) "p1").map
        Item.notes = some "ligne A\nligne B" := by
  refine ⟨rfl, rfl, by decide, ?_, ?_⟩ <;> decide

/-- Witness for the C3 theorem: a concrete canonical-status,
clean-notes tracked listing re-confirmed in a one-item batch. -/
theorem merge_c3_amended_witness :
    ∃ e, jsMapGet (mergeScan cfgDflt envDflt [batC3w] [] [exC3w] 0)
        batC3w.id = some e ∧
      e.pinned = exC3w.pinned ∧ e.status = exC3w.status ∧
      e.firstSeenAt = some 42 ∧ e.missingCount = 0 ∧
      e.active = true ∧ e.isRemoved = false ∧
      (e.notes = exC3w.notes ∨ ∃ d, isStrictEntryDate (some d) = true ∧
        e.notes = (if exC3w.notes ≠ "" then
            jsTrim (exC3w.notes ++ "\n" ++ ("Entrée : " ++ d))
          else "Entrée : " ++ d)) :=
  merge_c3_amended cfgDflt envDflt [batC3w] [] [exC3w] 0 batC3w exC3w 42
    (by decide) (by decide) (by decide) (by decide) (by decide) (by decide)
    (by decide)

theorem toDurationMinutesOrNull_idem (v : Option ℚ) :
    toDurationMinutesOrNull (toDurationMinutesOrNull v) = toDurationMinutesOrNull v := by
  cases v with
  | none => rfl
  | some n =>
    by_cases h : 0 < n <;>
      simp [toDurationMinutesOrNull, toNumberOrNull, h]

theorem applyScore_drive (cfg : Config) (it : Item) :
    (applyScore cfg it).driveMinutes = it.driveMinutes := rfl

theorem applyScore_transit (cfg : Config) (it : Item) :
    (applyScore cfg it).transitMinutes = it.transitMinutes := rfl

theorem applyScore_publishedAt (cfg : Config) (it : Item) :
    (applyScore cfg it).publishedAt = it.publishedAt := rfl

theorem applyScore_score (cfg : Config) (it : Item) :
    (applyScore cfg it).score = (computeScore it cfg).1 := rfl

theorem mergePresent_drive (ex itE : Item) (prevIds : List String)
    (now : Int) :
    (mergePresent ex itE prevIds now).driveMinutes =
      match toDurationMinutesOrNull itE.driveMinutes with
      | some d => some d
      | none => toDurationMinutesOrNull ex.driveMinutes := rfl

theorem mergePresent_transit (ex itE : Item) (prevIds : List String)
    (now : Int) :
    (mergePresent ex itE prevIds now).transitMinutes =
      match toDurationMinutesOrNull itE.transitMinutes with
      | some t => some t
      | none => toDurationMinutesOrNull ex.transitMinutes := rfl

theorem mergePresent_publishedAt (ex itE : Item) (prevIds : List String)
    (now : Int) :
    (mergePresent ex itE prevIds now).publishedAt =
      match itE.publishedAt with
      | some p => some p
      | none => ex.publishedAt := rfl

theorem freshEntry_drive (itE : Item) (now : Int) :
    (freshEntry itE now).driveMinutes =
      toDurationMinutesOrNull itE.driveMinutes := rfl

theorem freshEntry_transit (itE : Item) (now : Int) :
    (freshEntry itE now).transitMinutes =
      toDurationMinutesOrNull itE.transitMinutes := rfl

theorem freshEntry_publishedAt (itE : Item) (now : Int) :
    (freshEntry itE now).publishedAt = itE.publishedAt := rfl

theorem buildKey_applyScore (cfg : Config) (it : Item) :
    buildCrossSourceDedupKey (applyScore cfg it) =
      buildCrossSourceDedupKey it := rfl

theorem buildKey_mergePresent (ex itE : Item) (prevIds : List String)
    (now : Int) :
    buildCrossSourceDedupKey (mergePresent ex itE prevIds now) =
      buildCrossSourceDedupKey itE := rfl

theorem buildKey_freshEntry (itE : Item) (now : Int) :
    buildCrossSourceDedupKey (freshEntry itE now) =
      buildCrossSourceDedupKey itE := rfl

theorem computeScore_congr (a b : Item) (cfg : Config)
    (h1 : a.listingStage = b.listingStage) (h2 : a.totalChf = b.totalChf)
    (h3 : a.rooms = b.rooms) (h4 : a.objectType = b.objectType)
    (h5 : a.area = b.area) (h6 : a.transitMinutes = b.transitMinutes)
    (h7 : a.driveMinutes = b.driveMinutes) :
    computeScore a cfg = computeScore b cfg := by
  unfold computeScore
  rw [h1, h2, h3, h4, h5, h6, h7]

/-- Claim C1 (corrected): the reconciler is idempotent on the listings
present in the batch — re-running the merge pass on its own output with the
identical batch yields, for every batch listing, the same `missingCount`,
`score`, `display`, `active`, `isRemoved`, cross-source dedup key,
`filterReason`, `priority`, `isPearl`, travel durations and `publishedAt`
as the first run.  (It is not idempotent on absent listings, whose
`missingCount` increments every run — see the counterexample.) -/
theorem reconcile_c1_amended (cfg : Config) (env : Env)
    (dedup : List Item) (prevIds : List String) (tracker : List Item)
    (now : Int) (it : Item)
    (hit : it ∈ dedup) (hnd : (dedup.map Item.id).Nodup) :
    ∃ e1 e2,
      jsMapGet (mergeScan cfg env dedup prevIds tracker now) it.id
        = some e1 ∧
      jsMapGet (mergeScan cfg env dedup prevIds
          (mergeScan cfg env dedup prevIds tracker now) now) it.id
        = some e2 ∧
      e2.missingCount = e1.missingCount ∧ e2.score = e1.score ∧
      e2.display = e1.display ∧ e2.active = e1.active ∧
      e2.isRemoved = e1.isRemoved ∧
      buildCrossSourceDedupKey e2 = buildCrossSourceDedupKey e1 ∧
      e2.filterReason = e1.filterReason ∧ e2.priority = e1.priority ∧
      e2.isPearl = e1.isPearl ∧
      e2.driveMinutes = e1.driveMinutes ∧
      e2.transitMinutes = e1.transitMinutes ∧
      e2.publishedAt = e1.publishedAt := by
  have hfound1 := jsMapGet_mergeScan_present cfg env dedup prevIds tracker
    now it hit hnd
  have hfound2 := jsMapGet_mergeScan_present cfg env dedup prevIds
    (mergeScan cfg env dedup prevIds tracker now) now it hit hnd
  have hP2 : presentOne cfg env prevIds
      (mergeScan cfg env dedup prevIds tracker now) now it =
      mergePresent
        (applyScore cfg (presentOne cfg env prevIds tracker now it))
        (enrichPresent cfg env now it) prevIds now := by
    unfold presentOne
    have hkey : jsMapGet (mergeScan cfg env dedup prevIds tracker now)
        (enrichPresent cfg env now it).id =
        some (applyScore cfg (presentOne cfg env prevIds tracker now it)) := by
      rw [enrichPresent_id]
      exact hfound1
    simp only [hkey]
    rfl
  refine ⟨applyScore cfg (presentOne cfg env prevIds tracker now it),
    applyScore cfg (presentOne cfg env prevIds
      (mergeScan cfg env dedup prevIds tracker now) now it),
    hfound1, hfound2, ?_⟩
  rw [hP2]
  cases hex : jsMapGet tracker (enrichPresent cfg env now it).id with
  | some ex =>
    have hP1 : presentOne cfg env prevIds tracker now it =
        mergePresent ex (enrichPresent cfg env now it) prevIds now := by
      unfold presentOne
      simp only [hex]
    rw [hP1]
    have hdr : (mergePresent (applyScore cfg (mergePresent ex
        (enrichPresent cfg env now it) prevIds now))
        (enrichPresent cfg env now it) prevIds now).driveMinutes =
        (mergePresent ex (enrichPresent cfg env now it) prevIds
          now).driveMinutes := by
      simp only [mergePresent_drive, applyScore_drive]
      cases h : toDurationMinutesOrNull
          (enrichPresent cfg env now it).driveMinutes with
      | some d => rfl
      | none => exact toDurationMinutesOrNull_idem ex.driveMinutes
    have htr : (mergePresent (applyScore cfg (mergePresent ex
        (enrichPresent cfg env now it) prevIds now))
        (enrichPresent cfg env now it) prevIds now).transitMinutes =
        (mergePresent ex (enrichPresent cfg env now it) prevIds
          now).transitMinutes := by
      simp only [mergePresent_transit, applyScore_transit]
      cases h : toDurationMinutesOrNull
          (enrichPresent cfg env now it).transitMinutes with
      | some t => rfl
      | none => exact toDurationMinutesOrNull_idem ex.transitMinutes
    refine ⟨rfl, ?_, rfl, rfl, rfl, ?_, rfl, rfl, rfl, ?_, ?_, ?_⟩
    · rw [applyScore_score, applyScore_score,
        computeScore_congr
          (mergePresent (applyScore cfg (mergePresent ex
            (enrichPresent cfg env now it) prevIds now))
            (enrichPresent cfg env now it) prevIds now)
          (mergePresent ex (enrichPresent cfg env now it) prevIds now)
          cfg rfl rfl rfl rfl rfl htr hdr]
    · simp only [buildKey_applyScore, buildKey_mergePresent]
    · rw [applyScore_drive, applyScore_drive]
      exact hdr
    · rw [applyScore_transit, applyScore_transit]
      exact htr
    · simp only [applyScore_publishedAt, mergePresent_publishedAt]
      cases hpub : (enrichPresent cfg env now it).publishedAt <;> rfl
  | none =>
    have hP1 : presentOne cfg env prevIds tracker now it =
        freshEntry (enrichPresent cfg env now it) now := by
      unfold presentOne
      simp only [hex]
    rw [hP1]
    have hdr : (mergePresent (applyScore cfg (freshEntry
        (enrichPresent cfg env now it) now))
        (enrichPresent cfg env now it) prevIds now).driveMinutes =
        (freshEntry (enrichPresent cfg env now it) now).driveMinutes := by
      simp only [mergePresent_drive, applyScore_drive, freshEntry_drive]
      cases h : toDurationMinutesOrNull
          (enrichPresent cfg env now it).driveMinutes with
      | some d => rfl
      | none => rfl
    have htr : (mergePresent (applyScore cfg (freshEntry
        (enrichPresent cfg env now it) now))
        (enrichPresent cfg env now it) prevIds now).transitMinutes =
        (freshEntry (enrichPresent cfg env now it) now).transitMinutes := by
      simp only [mergePresent_transit, applyScore_transit, freshEntry_transit]
      cases h : toDurationMinutesOrNull
          (enrichPresent cfg env now it).transitMinutes with
      | some t => rfl
      | none => rfl
    refine ⟨rfl, ?_, rfl, rfl, rfl, ?_, rfl, rfl, rfl, ?_, ?_, ?_⟩
    · rw [applyScore_score, applyScore_score,
        computeScore_congr
          (mergePresent (applyScore cfg (freshEntry
            (enrichPresent cfg env now it) now))
            (enrichPresent cfg env now it) prevIds now)
          (freshEntry (enrichPresent cfg env now it) now)
          cfg rfl rfl rfl rfl rfl htr hdr]
    · simp only [buildKey_applyScore, buildKey_mergePresent,
        buildKey_freshEntry]
    · rw [applyScore_drive, applyScore_drive]
      exact hdr
    · rw [applyScore_transit, applyScore_transit]
      exact htr
    · simp only [applyScore_publishedAt, mergePresent_publishedAt,
        freshEntry_publishedAt]
      cases hpub : (enrichPresent cfg env now it).publishedAt <;> rfl

/-- Counterexample for C1 as stated: a tracker listing absent from the
batch has `missingCount = 1, isRemoved = false` after the first run but
`missingCount = 2, isRemoved = true` after re-running the reconciler on the
first run's output with the identical batch — the second run does not
reproduce the first run's state. -/
theorem reconcile_c1_counterexample :
    (jsMapGet (mergeScan cfgDflt envDflt [itC1] [] [trkC1] 0) "x1").map
        Item.missingCount = some 1 ∧
    (jsMapGet (mergeScan cfgDflt envDflt [itC1] []
        (mergeScan cfgDflt envDflt [itC1] [] [trkC1] 0) 0) "x1").map
        Item.missingCount = some 2 ∧
    (jsMapGet (mergeScan cfgDflt envDflt [itC1] [] [trkC1] 0) "x1").map
        Item.isRemoved = some false ∧
    (jsMapGet (mergeScan cfgDflt envDflt [itC1] []
        (mergeScan cfgDflt envDflt [itC1] [] [trkC1] 0) 0) "x1").map
        Item.isRemoved = some true := by
  refine ⟨?_, ?_, ?_, ?_⟩ <;> decide

/-- Witness for the C1 theorem: a concrete one-item batch merged twice
over a tracker holding the matching entry. -/
theorem reconcile_c1_amended_witness :
    itC1 ∈ [itC1] ∧
    (∃ e1 e2,
      jsMapGet (mergeScan cfgDflt envDflt [itC1] [] [exC1] 0) itC1.id
        = some e1 ∧
      jsMapGet (mergeScan cfgDflt envDflt [itC1] []
          (mergeScan cfgDflt envDflt [itC1] [] [exC1] 0) 0) itC1.id
        = some e2 ∧
      e2.missingCount = e1.missingCount ∧ e2.score = e1.score ∧
      e2.display = e1.display ∧ e2.active = e1.active ∧
      e2.isRemoved = e1.isRemoved ∧
      buildCrossSourceDedupKey e2 = buildCrossSourceDedupKey e1 ∧
      e2.filterReason = e1.filterReason ∧ e2.priority = e1.priority ∧
      e2.isPearl = e1.isPearl ∧
      e2.driveMinutes = e1.driveMinutes ∧
      e2.transitMinutes = e1.transitMinutes ∧
      e2.publishedAt = e1.publishedAt) :=
  ⟨by decide, reconcile_c1_amended cfgDflt envDflt [itC1] [] [exC1] 0
    itC1 (by decide) (by decide)⟩

end DecideEval

end FlatScrap
